import Mathlib

/-!
Shallow embedding of the Validation & Evidence Engine of the vaudit2.0
repository, together with theorems settling the frozen claims about it.

Python machine floats are modelled by rationals; Python `datetime.date`
values are modelled by a year/month/day record with the CPython validity
check.  Decimal rendering of numbers inside human-readable messages is
abstracted by `pyNumStr` (no claim depends on message text).
-/

namespace VAudit

/-! ## Evidence model (src/domain/schemas/evidence.py, extraction.py, storage/models.py) -/

/-- Severity levels for validation findings (evidence.py `FindingSeverity`). -/
inductive FindingSeverity where
  | ERROR
  | WARNING
  | INFO
deriving DecidableEq, Repr

/-- Possible validation result states (storage/models.py `ValidationStatus`). -/
inductive ValidationStatus where
  | APPROVED
  | REJECTED
  | REVIEW_NEEDED
  | PENDING
  | FAILED
deriving DecidableEq, Repr

/-- Normalized bounding box coordinates (extraction.py `BoundingBox`). -/
structure BoundingBox where
  left : ℚ
  top : ℚ
  right : ℚ
  bottom : ℚ
deriving DecidableEq, Repr

/-- Location where a field was extracted from (extraction.py `FieldLocation`). -/
structure FieldLocation where
  page : Nat
  bbox : BoundingBox
  chunk_id : Option String := none
deriving DecidableEq, Repr

/-- A single extracted field with its source location (extraction.py `ExtractedField`). -/
structure ExtractedField where
  name : String
  value : Option String
  confidence : Option ℚ := none
  location : Option FieldLocation := none
deriving DecidableEq, Repr

/-- Extracted calibration certificate information (extraction.py `CalibrationInfo`). -/
structure CalibrationInfo where
  instrument_type : Option String := none
  serial_number : Option ExtractedField := none
  calibration_date : Option ExtractedField := none
  expiration_date : Option ExtractedField := none
  certificate_number : Option ExtractedField := none
  calibrating_lab : Option ExtractedField := none
deriving DecidableEq, Repr

/-- A single measurement reading (extraction.py `MeasurementReading`).  The
`value` slot is optional here because `validate_phase_delta` defensively
checks `reading.value is None`. -/
structure MeasurementReading where
  location_label : String
  value : Option ExtractedField
  unit : Option String := none
deriving DecidableEq, Repr

/-- Thermography-specific extracted data (extraction.py `ThermographyData`). -/
structure ThermographyData where
  camera_ambient_temp : Option ExtractedField := none
  datalogger_temp : Option ExtractedField := none
  phase_readings : List MeasurementReading := []
  energy_marshal_comment : Option ExtractedField := none
deriving DecidableEq, Repr

/-- Modelled from the spec: `GroundingData{calibration, resistance_value,
test_method, installation_type}` (spec section 3).  The class is imported by the
grounding validators from `src.domain.schemas.extraction` but its declaration
is not among the provided sources; the field shapes follow the spec and the
validators' accesses. -/
structure GroundingData where
  calibration : Option CalibrationInfo := none
  resistance_value : Option ExtractedField := none
  test_method : Option ExtractedField := none
  installation_type : Option ExtractedField := none
deriving DecidableEq, Repr

/-- Modelled from the spec: `MeggerData{calibration, test_voltage,
equipment_voltage_rating, insulation_resistance}` (spec section 3).  The class
is imported by the megger validators from `src.domain.schemas.extraction` but
its declaration is not among the provided sources; the field shapes follow the
spec and the validators' accesses. -/
structure MeggerData where
  calibration : Option CalibrationInfo := none
  test_voltage : Option ExtractedField := none
  equipment_voltage_rating : Option ExtractedField := none
  insulation_resistance : Option ExtractedField := none
deriving DecidableEq, Repr

/-- A single validation finding (evidence.py `Finding`). -/
structure Finding where
  rule_id : String
  severity : FindingSeverity
  message : String
  field_name : String
  found_value : Option String := none
  expected_value : Option String := none
  location : Option FieldLocation := none
deriving DecidableEq, Repr

/-- Compute overall validation status from findings (evidence.py `compute_status`). -/
def compute_status (findings : List Finding) : ValidationStatus :=
  let has_error := findings.any (fun f => f.severity == FindingSeverity.ERROR)
  let has_warning := findings.any (fun f => f.severity == FindingSeverity.WARNING)
  if has_error then ValidationStatus.REJECTED
  else if has_warning then ValidationStatus.REVIEW_NEEDED
  else ValidationStatus.APPROVED

/-- Rank of a status in the order `APPROVED < REVIEW_NEEDED < REJECTED` used by
the status-monotonicity property.  `PENDING`/`FAILED` are caller lifecycle
states never produced by `compute_status`; their rank is irrelevant. -/
def statusRank : ValidationStatus → Nat
  | ValidationStatus.APPROVED => 0
  | ValidationStatus.REVIEW_NEEDED => 1
  | ValidationStatus.REJECTED => 2
  | ValidationStatus.PENDING => 0
  | ValidationStatus.FAILED => 0

/-- The severities of a finding list, in order. -/
def severities (l : List Finding) : List FindingSeverity := l.map (·.severity)

/-! ## Python string primitives

`str.strip`, `str.split(sep)`, `str.lower`/`upper`, `int()` and `float()` are
modelled character-exactly for the ASCII inputs the engine handles (unicode
digit/space classes and underscore digit grouping are out of scope; `float`
accepts finite decimal literals, so the `inf`/`nan` spellings are treated as
unparseable). -/

/-- Characters removed by `str.strip()`. -/
def pySpaceChar (c : Char) : Bool :=
  c = ' ' || c = '\t' || c = '\n' || c = '\x0d' || c = '\x0b' || c = '\x0c'

/-- Strip `pySpaceChar`s from both ends of a character list. -/
def stripChars (l : List Char) : List Char :=
  ((l.dropWhile pySpaceChar).reverse.dropWhile pySpaceChar).reverse

/-- Python `s.strip()`. -/
def pyStrip (s : String) : String := String.mk (stripChars s.toList)

/-- Python `s.split(sep)` for a one-character separator, on character lists. -/
def splitCh (sep : Char) : List Char → List (List Char)
  | [] => [[]]
  | c :: rest =>
    if c = sep then [] :: splitCh sep rest
    else
      match splitCh sep rest with
      | [] => [[c]]
      | g :: gs => (c :: g) :: gs

/-- Join groups with a one-character separator (left inverse of `splitCh`). -/
def joinCh (sep : Char) : List (List Char) → List Char
  | [] => []
  | [g] => g
  | g :: gs => g ++ sep :: joinCh sep gs

/-- Python `s.split(sep)` for a one-character separator. -/
def pySplit (sep : Char) (s : String) : List String :=
  (splitCh sep s.toList).map (fun l => String.mk l)

/-- Python `s.lower()` (ASCII). -/
def pyLower (s : String) : String := String.mk (s.toList.map Char.toLower)

/-- Python `s.upper()` (ASCII). -/
def pyUpper (s : String) : String := String.mk (s.toList.map Char.toUpper)

/-- Python `s.replace(" ", "-")`. -/
def pyReplaceSpaceHyphen (s : String) : String :=
  String.mk (s.toList.map (fun c => if c = ' ' then '-' else c))

/-- Numeric value of a digit list. -/
def digitsVal (l : List Char) : Nat :=
  l.foldl (fun acc c => acc * 10 + (c.toNat - 48)) 0

/-- Nonempty list of ASCII digits. -/
def isDigits (l : List Char) : Bool := !l.isEmpty && l.all Char.isDigit

/-! ## Python exceptions and fallible primitives -/

/-- The Python exception kinds relevant to the engine's try/except blocks. -/
inductive PyExc where
  | valueError
  | indexError
  | typeError
deriving DecidableEq, Repr

/-- Python `int(s)`: strips whitespace, optional sign, decimal digits;
raises `ValueError` otherwise. -/
def pyInt (s : String) : Except PyExc Int :=
  match stripChars s.toList with
  | '+' :: r => if isDigits r then Except.ok (digitsVal r : Int) else Except.error PyExc.valueError
  | '-' :: r => if isDigits r then Except.ok (-(digitsVal r : Int)) else Except.error PyExc.valueError
  | r => if isDigits r then Except.ok (digitsVal r : Int) else Except.error PyExc.valueError

/-- Python `l[i]`: raises `IndexError` out of range. -/
def pyIndex {α : Type} (l : List α) (i : Nat) : Except PyExc α :=
  match l.get? i with
  | some a => Except.ok a
  | none => Except.error PyExc.indexError

/-! ## Python dates -/

/-- A `datetime.date` value. -/
structure PyDate where
  year : Int
  month : Int
  day : Int
deriving DecidableEq, Repr

/-- Gregorian leap-year rule used by `datetime`. -/
def isLeapYear (y : Int) : Bool := (y % 4 == 0 && y % 100 != 0) || (y % 400 == 0)

/-- Days in a month, as checked by the `datetime.date` constructor. -/
def daysInMonth (y m : Int) : Int :=
  if m == 2 then (if isLeapYear y then 29 else 28)
  else if m == 4 || m == 6 || m == 9 || m == 11 then 30
  else 31

/-- The `datetime.date` validity condition (`MINYEAR = 1`, `MAXYEAR = 9999`). -/
def PyDate.valid (d : PyDate) : Bool :=
  decide (1 ≤ d.year) && decide (d.year ≤ 9999) &&
  decide (1 ≤ d.month) && decide (d.month ≤ 12) &&
  decide (1 ≤ d.day) && decide (d.day ≤ daysInMonth d.year d.month)

/-- Python `date.__lt__`: lexicographic on (year, month, day). -/
def PyDate.lt (a b : PyDate) : Bool :=
  decide (a.year < b.year) ||
  (a.year == b.year &&
    (decide (a.month < b.month) ||
      (a.month == b.month && decide (a.day < b.day))))

/-- Python `date(y, m, d)`: raises `ValueError` on an invalid date. -/
def pyDateNew (y m d : Int) : Except PyExc PyDate :=
  if (PyDate.mk y m d).valid then Except.ok (PyDate.mk y m d)
  else Except.error PyExc.valueError

/-- Sequential evaluation in the presence of exceptions. -/
def stepBind {α β : Type} (x : Except PyExc α) (f : α → Except PyExc β) : Except PyExc β :=
  match x with
  | Except.ok a => f a
  | Except.error e => Except.error e

/-- The `except (ValueError, IndexError): return None` wrapper shared by the
three numeric date parsers; any other exception kind would propagate. -/
def catchParse (r : Except PyExc PyDate) : Except PyExc (Option PyDate) :=
  match r with
  | Except.ok d => Except.ok (some d)
  | Except.error PyExc.valueError => Except.ok none
  | Except.error PyExc.indexError => Except.ok none
  | Except.error e => Except.error e

/-! ## Date parser (src/domain/validators/date_parser.py) -/

/-- Supported date formats (`DateFormat`). -/
inductive DateFormat where
  | ISO
  | DD_MM_YYYY
  | MM_DD_YY
deriving DecidableEq, Repr

/-- A digit group of width between `lo` and `hi`, as in the detection regexes. -/
def digitGroup (l : List Char) (lo hi : Nat) : Bool :=
  decide (lo ≤ l.length) && decide (l.length ≤ hi) && l.all Char.isDigit

/-- The regex `^\d{4}-\d{2}-\d{2}$` (`_ISO_PATTERN`). -/
def isoPattern (s : String) : Bool :=
  match splitCh '-' s.toList with
  | [y, m, d] => digitGroup y 4 4 && digitGroup m 2 2 && digitGroup d 2 2
  | _ => false

/-- The regex `^\d{1,2}/\d{1,2}/\d{4}$` (`_DD_MM_YYYY_PATTERN`). -/
def ddmmyyyyPattern (s : String) : Bool :=
  match splitCh '/' s.toList with
  | [d, m, y] => digitGroup d 1 2 && digitGroup m 1 2 && digitGroup y 4 4
  | _ => false

/-- The regex `^\d{1,2}/\d{1,2}/\d{2}$` (`_MM_DD_YY_PATTERN`). -/
def mmddyyPattern (s : String) : Bool :=
  match splitCh '/' s.toList with
  | [m, d, y] => digitGroup m 1 2 && digitGroup d 1 2 && digitGroup y 2 2
  | _ => false

/-- `detect_format`: detect the date format without parsing. -/
def detect_format (value : String) : Option DateFormat :=
  if value = "" then none
  else
    let v := pyStrip value
    if isoPattern v then some DateFormat.ISO
    else if ddmmyyyyPattern v then some DateFormat.DD_MM_YYYY
    else if mmddyyPattern v then some DateFormat.MM_DD_YY
    else none

/-- `_parse_iso`: parse ISO format `YYYY-MM-DD`. -/
def parse_iso (value : String) : Except PyExc (Option PyDate) :=
  let parts := pySplit '-' value
  catchParse
    (stepBind (pyIndex parts 0) fun p0 =>
     stepBind (pyInt p0) fun year =>
     stepBind (pyIndex parts 1) fun p1 =>
     stepBind (pyInt p1) fun month =>
     stepBind (pyIndex parts 2) fun p2 =>
     stepBind (pyInt p2) fun day =>
     pyDateNew year month day)

/-- `_parse_dd_mm_yyyy`: parse `DD/MM/YYYY` (day first). -/
def parse_dd_mm_yyyy (value : String) : Except PyExc (Option PyDate) :=
  let parts := pySplit '/' value
  catchParse
    (stepBind (pyIndex parts 0) fun p0 =>
     stepBind (pyInt p0) fun day =>
     stepBind (pyIndex parts 1) fun p1 =>
     stepBind (pyInt p1) fun month =>
     stepBind (pyIndex parts 2) fun p2 =>
     stepBind (pyInt p2) fun year =>
     pyDateNew year month day)

/-- `_parse_mm_dd_yy`: parse `MM/DD/YY` (month first, year mapped to 2000+yy). -/
def parse_mm_dd_yy (value : String) : Except PyExc (Option PyDate) :=
  let parts := pySplit '/' value
  catchParse
    (stepBind (pyIndex parts 0) fun p0 =>
     stepBind (pyInt p0) fun month =>
     stepBind (pyIndex parts 1) fun p1 =>
     stepBind (pyInt p1) fun day =>
     stepBind (pyIndex parts 2) fun p2 =>
     stepBind (pyInt p2) fun year_2digit =>
     pyDateNew (2000 + year_2digit) month day)

/-- `_try_format`: attempt to parse `value` using a specific format. -/
def try_format (value : String) : DateFormat → Except PyExc (Option PyDate)
  | DateFormat.ISO => parse_iso value
  | DateFormat.DD_MM_YYYY => parse_dd_mm_yyyy value
  | DateFormat.MM_DD_YY => parse_mm_dd_yy value

/-- `parse_date` with the exception channel made explicit: an `Except.error`
value would be an exception escaping to the caller. -/
def parse_dateE (value : Option String) (hint : Option DateFormat) :
    Except PyExc (Option PyDate) :=
  match value with
  | none => Except.ok none
  | some raw =>
    let v := pyStrip raw
    if v = "" then Except.ok none
    else
      let auto : Except PyExc (Option PyDate) :=
        match detect_format v with
        | some fmt => try_format v fmt
        | none => Except.ok none
      match hint with
      | some h =>
        match try_format v h with
        | Except.ok (some d) => Except.ok (some d)
        | Except.ok none => auto
        | Except.error e => Except.error e
      | none => auto

/-- The `Option`-valued view of an exception-channel result. -/
def exceptValue (r : Except PyExc (Option PyDate)) : Option PyDate :=
  match r with
  | Except.ok o => o
  | Except.error _ => none

/-- `parse_date`: parse a date string in multiple formats. -/
def parse_date (value : Option String) (hint : Option DateFormat) : Option PyDate :=
  exceptValue (parse_dateE value hint)

/-! ## Python `float()` on finite decimal literals -/

/-- Longest digit run and the remainder. -/
def spanDigits (l : List Char) : List Char × List Char :=
  (l.takeWhile Char.isDigit, l.dropWhile Char.isDigit)

/-- `10 ^ z` over the rationals. -/
def qpow10 (z : Int) : ℚ :=
  if 0 ≤ z then ((10 : ℚ) ^ z.toNat) else 1 / ((10 : ℚ) ^ (-z).toNat)

/-- Exponent suffix of a float literal: optional sign and digits. -/
def floatExpPart (l : List Char) : Option Int :=
  let (neg, r) :=
    match l with
    | '+' :: r => (false, r)
    | '-' :: r => (true, r)
    | r => (false, r)
  if isDigits r then some (if neg then -(digitsVal r : Int) else (digitsVal r : Int))
  else none

/-- Mantissa of a float literal (`123`, `123.`, `.5`, `1.5`), returning its
value and the unconsumed remainder. -/
def floatMantissa (l : List Char) : Option (ℚ × List Char) :=
  let (ip, r1) := spanDigits l
  match r1 with
  | '.' :: r2 =>
    let (fp, r3) := spanDigits r2
    if ip.isEmpty && fp.isEmpty then none
    else some ((digitsVal ip : ℚ) + (digitsVal fp : ℚ) / ((10 : ℚ) ^ fp.length), r3)
  | _ => if ip.isEmpty then none else some ((digitsVal ip : ℚ), r1)

/-- Python `float(s)` on finite decimal literals, as an exact rational;
`none` models a raised `ValueError`.  The `inf`/`nan` spellings are treated as
unparseable (no claim involves them). -/
def pyFloat (s : String) : Option ℚ :=
  let l0 := stripChars s.toList
  let (neg, l) :=
    match l0 with
    | '+' :: r => (false, r)
    | '-' :: r => (true, r)
    | r => (false, r)
  match floatMantissa l with
  | none => none
  | some (q, rest) =>
    let q := if neg then -q else q
    match rest with
    | [] => some q
    | e :: r4 =>
      if e = 'e' || e = 'E' then
        match floatExpPart r4 with
        | none => none
        | some z => some (q * qpow10 z)
      else none

/-- Decimal rendering of a number inside a message string.  The exact digits
Python would print are abstracted; no claim depends on message text. -/
def pyNumStr (q : ℚ) : String := reprStr q

/-- Zero-padded decimal rendering of a nonnegative number. -/
def padNat (w : Nat) (n : Nat) : String :=
  let s := toString n
  if s.length < w then String.mk (List.replicate (w - s.length) '0') ++ s else s

/-- Python `str(date)`: ISO `YYYY-MM-DD` with zero padding. -/
def dateStr (d : PyDate) : String :=
  padNat 4 d.year.toNat ++ "-" ++ padNat 2 d.month.toNat ++ "-" ++ padNat 2 d.day.toNat

/-- Python `repr` of an optional string (quoting abstracted, no escaping;
no claim depends on it). -/
def pyReprOpt : Option String → String
  | none => "None"
  | some s => "'" ++ s ++ "'"

/-! ## Calibration expiry validator (src/domain/validators/calibration.py) -/

/-- `validate_calibration`: validate certificate expiration against test date. -/
def validate_calibration (calibration : CalibrationInfo) (test_date : PyDate)
    (rule_id : String := "VAL-01") : List Finding :=
  match calibration.expiration_date with
  | none =>
    [{ rule_id := rule_id, severity := FindingSeverity.WARNING,
       message := "Missing calibration expiration date - manual review required",
       field_name := "expiration_date", found_value := none, expected_value := none,
       location := none }]
  | some ef =>
    match ef.value with
    | none =>
      [{ rule_id := rule_id, severity := FindingSeverity.WARNING,
         message := "Missing calibration expiration date - manual review required",
         field_name := "expiration_date", found_value := none, expected_value := none,
         location := ef.location }]
    | some raw_value =>
      match parse_date (some raw_value) none with
      | none =>
        [{ rule_id := rule_id, severity := FindingSeverity.WARNING,
           message := "Could not parse expiration date '" ++ raw_value ++ "' - manual review required",
           field_name := "expiration_date", found_value := some raw_value,
           expected_value := none, location := ef.location }]
      | some parsed_expiration =>
        if parsed_expiration.lt test_date then
          [{ rule_id := rule_id, severity := FindingSeverity.ERROR,
             message := "Calibration expired on " ++ dateStr parsed_expiration ++
               ", test performed on " ++ dateStr test_date,
             field_name := "expiration_date",
             found_value := some (dateStr parsed_expiration),
             expected_value := some (">= " ++ dateStr test_date),
             location := ef.location }]
        else
          [{ rule_id := rule_id, severity := FindingSeverity.INFO,
             message := "Calibration valid until " ++ dateStr parsed_expiration,
             field_name := "expiration_date",
             found_value := some (dateStr parsed_expiration),
             expected_value := none, location := ef.location }]

/-! ## Serial-consistency validator (src/domain/validators/serial.py) -/

/-- Python string comparison: lexicographic by code point. -/
def charListLe : List Char → List Char → Bool
  | [], _ => true
  | _ :: _, [] => false
  | a :: as, b :: bs =>
    if a < b then true
    else if b < a then false
    else charListLe as bs

/-- Insert into an ascending list under the Python string order. -/
def insertSorted (x : String) : List String → List String
  | [] => [x]
  | y :: ys => if charListLe x.toList y.toList then x :: y :: ys else y :: insertSorted x ys

/-- Ascending sort, modelling Python `sorted` on distinct strings. -/
def sortStrs : List String → List String
  | [] => []
  | x :: xs => insertSorted x (sortStrs xs)

/-- The distinct values of a list, modelling Python `set(...)` (iteration
order is irrelevant: the validator only sorts or counts the result). -/
def dedupStrs : List String → List String
  | [] => []
  | x :: xs => if (dedupStrs xs).contains x then dedupStrs xs else x :: dedupStrs xs

/-- `validate_serial_consistency`: serial numbers must agree across locations. -/
def validate_serial_consistency (serial_numbers : List ExtractedField)
    (rule_id : String := "VAL-02") : List Finding :=
  if serial_numbers.length < 2 then
    [{ rule_id := rule_id, severity := FindingSeverity.INFO,
       message := "Serial number consistency check skipped (insufficient data)",
       field_name := "serial_number",
       found_value := match serial_numbers.head? with | some f => f.value | none => none,
       expected_value := none,
       location := match serial_numbers.head? with | some f => f.location | none => none }]
  else
    let normalized_serials : List (String × ExtractedField) :=
      serial_numbers.filterMap (fun f => f.value.map (fun v => (pyUpper (pyStrip v), f)))
    if normalized_serials.length < 2 then
      [{ rule_id := rule_id, severity := FindingSeverity.INFO,
         message := "Serial number consistency check skipped (insufficient valid values)",
         field_name := "serial_number", found_value := none, expected_value := none,
         location := none }]
    else
      let unique_values := dedupStrs (normalized_serials.map Prod.fst)
      if unique_values.length == 1 then
        let serial_value := unique_values.head?.getD ""
        [{ rule_id := rule_id, severity := FindingSeverity.INFO,
           message := "Serial numbers consistent: " ++ serial_value ++ " (found in " ++
             toString normalized_serials.length ++ " locations)",
           field_name := "serial_number", found_value := some serial_value,
           expected_value := none,
           location := match normalized_serials.head? with | some p => p.2.location | none => none }]
      else
        let unique_values_str := String.intercalate ", " (sortStrs unique_values)
        { rule_id := rule_id, severity := FindingSeverity.ERROR,
          message := "Serial number mismatch detected",
          field_name := "serial_number", found_value := some unique_values_str,
          expected_value := some "All serial numbers should match",
          location := match normalized_serials.head? with | some p => p.2.location | none => none } ::
        normalized_serials.map (fun p =>
          { rule_id := rule_id, severity := FindingSeverity.INFO,
            message := "Serial number '" ++ p.1 ++ "' found at this location",
            field_name := "serial_number", found_value := some p.1,
            expected_value := none, location := p.2.location })

/-! ## Camera-config validator (src/domain/validators/camera_config.py) -/

/-- `validate_camera_config`: camera ambient temperature must equal the
datalogger reading exactly. -/
def validate_camera_config (thermography : Option ThermographyData)
    (rule_id : String := "THERMO-01") : List Finding :=
  match thermography with
  | none => []
  | some data =>
    match data.camera_ambient_temp with
    | none =>
      [{ rule_id := rule_id, severity := FindingSeverity.WARNING,
         message := "Missing camera ambient temperature - manual review required",
         field_name := "camera_ambient_temp", found_value := none,
         expected_value := none, location := none }]
    | some cam =>
      match cam.value with
      | none =>
        [{ rule_id := rule_id, severity := FindingSeverity.WARNING,
           message := "Missing camera ambient temperature - manual review required",
           field_name := "camera_ambient_temp", found_value := none,
           expected_value := none, location := cam.location }]
      | some camera_value =>
        match data.datalogger_temp with
        | none =>
          [{ rule_id := rule_id, severity := FindingSeverity.WARNING,
             message := "Missing datalogger temperature - manual review required",
             field_name := "datalogger_temp", found_value := none,
             expected_value := none, location := none }]
        | some dl =>
          match dl.value with
          | none =>
            [{ rule_id := rule_id, severity := FindingSeverity.WARNING,
               message := "Missing datalogger temperature - manual review required",
               field_name := "datalogger_temp", found_value := none,
               expected_value := none, location := dl.location }]
          | some datalogger_value =>
            match pyFloat camera_value with
            | none =>
              [{ rule_id := rule_id, severity := FindingSeverity.WARNING,
                 message := "Could not parse camera ambient temperature '" ++ camera_value ++
                   "' - manual review required",
                 field_name := "camera_ambient_temp", found_value := some camera_value,
                 expected_value := none, location := cam.location }]
            | some camera_temp =>
              match pyFloat datalogger_value with
              | none =>
                [{ rule_id := rule_id, severity := FindingSeverity.WARNING,
                   message := "Could not parse datalogger temperature '" ++ datalogger_value ++
                     "' - manual review required",
                   field_name := "datalogger_temp", found_value := some datalogger_value,
                   expected_value := none, location := dl.location }]
              | some datalogger_temp =>
                if camera_temp ≠ datalogger_temp then
                  [{ rule_id := rule_id, severity := FindingSeverity.ERROR,
                     message := "Camera ambient temperature (" ++ pyNumStr camera_temp ++
                       "C) does not match datalogger (" ++ pyNumStr datalogger_temp ++ "C)",
                     field_name := "camera_ambient_temp",
                     found_value := some (pyNumStr camera_temp),
                     expected_value := some (pyNumStr datalogger_temp),
                     location := cam.location }]
                else
                  [{ rule_id := rule_id, severity := FindingSeverity.INFO,
                     message := "Camera configuration valid - ambient temperature matches datalogger (" ++
                       pyNumStr camera_temp ++ "C)",
                     field_name := "camera_ambient_temp",
                     found_value := some (pyNumStr camera_temp),
                     expected_value := none, location := cam.location }]

/-! ## Phase-delta validator (src/domain/validators/phase_delta.py) -/

def DELTA_WARNING_THRESHOLD : ℚ := 3.0

def DELTA_ERROR_THRESHOLD : ℚ := 15.0

/-- Accumulator of the reading-extraction loop of `validate_phase_delta`. -/
structure TempAcc where
  temperatures : List ℚ
  phase_labels : List String
  unparseable_phases : List String
deriving DecidableEq, Repr

/-- The reading-extraction loop of `validate_phase_delta`: partition readings
into parsed temperatures (with labels) and unparseable phase labels,
preserving encounter order. -/
def collectTemps : List MeasurementReading → TempAcc
  | [] => ⟨[], [], []⟩
  | r :: rest =>
    let acc := collectTemps rest
    match r.value with
    | none => ⟨acc.temperatures, acc.phase_labels, r.location_label :: acc.unparseable_phases⟩
    | some f =>
      match f.value with
      | none => ⟨acc.temperatures, acc.phase_labels, r.location_label :: acc.unparseable_phases⟩
      | some raw =>
        match pyFloat raw with
        | none => ⟨acc.temperatures, acc.phase_labels, r.location_label :: acc.unparseable_phases⟩
        | some t => ⟨t :: acc.temperatures, r.location_label :: acc.phase_labels, acc.unparseable_phases⟩

/-- Python `max` over a nonempty list (0 on the empty list, never reached). -/
def listMax : List ℚ → ℚ
  | [] => 0
  | [x] => x
  | x :: y :: r => max x (listMax (y :: r))

/-- Python `min` over a nonempty list (0 on the empty list, never reached). -/
def listMin : List ℚ → ℚ
  | [] => 0
  | [x] => x
  | x :: y :: r => min x (listMin (y :: r))

/-- Python `list.index`: first index of a value (length if absent, never
reached by the validator). -/
def indexOfQ (x : ℚ) : List ℚ → Nat
  | [] => 0
  | y :: ys => if y == x then 0 else indexOfQ x ys + 1

/-- `validate_phase_delta`: phase-to-phase temperature difference check. -/
def validate_phase_delta (phase_readings : List MeasurementReading)
    (rule_id : String := "THERMO-02") : List Finding :=
  if phase_readings.length < 2 then
    [{ rule_id := rule_id, severity := FindingSeverity.INFO,
       message := "Phase delta check skipped - insufficient data (need at least 2 phase readings)",
       field_name := "phase_temperatures",
       found_value := some (toString phase_readings.length),
       expected_value := some ">= 2", location := none }]
  else
    let acc := collectTemps phase_readings
    let findings0 : List Finding :=
      if acc.unparseable_phases.isEmpty then []
      else
        [{ rule_id := rule_id, severity := FindingSeverity.WARNING,
           message := "Could not parse temperature value(s) for phase(s): " ++
             String.intercalate ", " acc.unparseable_phases ++ " - manual review required",
           field_name := "phase_temperatures",
           found_value := some (String.intercalate ", " acc.unparseable_phases),
           expected_value := some "numeric temperature value", location := none }]
    if acc.temperatures.length < 2 then
      if findings0.isEmpty then
        [{ rule_id := rule_id, severity := FindingSeverity.INFO,
           message := "Phase delta check skipped - insufficient valid temperature data",
           field_name := "phase_temperatures",
           found_value := some (toString acc.temperatures.length),
           expected_value := some ">= 2", location := none }]
      else findings0
    else
      let max_temp := listMax acc.temperatures
      let min_temp := listMin acc.temperatures
      let delta := max_temp - min_temp
      let max_phase := (acc.phase_labels.get? (indexOfQ max_temp acc.temperatures)).getD ""
      let min_phase := (acc.phase_labels.get? (indexOfQ min_temp acc.temperatures)).getD ""
      findings0 ++
      [if delta > DELTA_ERROR_THRESHOLD then
        { rule_id := rule_id, severity := FindingSeverity.ERROR,
          message := "Phase delta " ++ pyNumStr delta ++ "C exceeds critical threshold of " ++
            pyNumStr DELTA_ERROR_THRESHOLD ++ "C (" ++ max_phase ++ ": " ++ pyNumStr max_temp ++
            "C, " ++ min_phase ++ ": " ++ pyNumStr min_temp ++ "C)",
          field_name := "phase_delta", found_value := some (pyNumStr delta ++ "C"),
          expected_value := some ("<= " ++ pyNumStr DELTA_ERROR_THRESHOLD ++ "C"),
          location := none }
      else if delta > DELTA_WARNING_THRESHOLD then
        { rule_id := rule_id, severity := FindingSeverity.WARNING,
          message := "Phase delta " ++ pyNumStr delta ++ "C exceeds review threshold of " ++
            pyNumStr DELTA_WARNING_THRESHOLD ++ "C (" ++ max_phase ++ ": " ++ pyNumStr max_temp ++
            "C, " ++ min_phase ++ ": " ++ pyNumStr min_temp ++ "C)",
          field_name := "phase_delta", found_value := some (pyNumStr delta ++ "C"),
          expected_value := some ("<= " ++ pyNumStr DELTA_WARNING_THRESHOLD ++ "C"),
          location := none }
      else
        { rule_id := rule_id, severity := FindingSeverity.INFO,
          message := "Phase delta " ++ pyNumStr delta ++ "C within normal range (<= " ++
            pyNumStr DELTA_WARNING_THRESHOLD ++ "C)",
          field_name := "phase_delta", found_value := some (pyNumStr delta ++ "C"),
          expected_value := some ("<= " ++ pyNumStr DELTA_WARNING_THRESHOLD ++ "C"),
          location := none }]

/-! ## Grounding resistance validator (src/domain/validators/grounding_resistance.py) -/

def RESISTANCE_WARNING_THRESHOLD : ℚ := 5.0

def RESISTANCE_ERROR_THRESHOLD : ℚ := 10.0

/-- `validate_grounding_resistance`: resistance against standard limits. -/
def validate_grounding_resistance (grounding : GroundingData)
    (rule_id : String := "GROUND-02") : List Finding :=
  match grounding.resistance_value with
  | none =>
    [{ rule_id := rule_id, severity := FindingSeverity.WARNING,
       message := "Grounding resistance value not found - manual review required",
       field_name := "grounding_resistance", found_value := none,
       expected_value := some "numeric resistance in ohms", location := none }]
  | some rv =>
    match rv.value with
    | none =>
      [{ rule_id := rule_id, severity := FindingSeverity.WARNING,
         message := "Grounding resistance value is missing or empty - manual review required",
         field_name := "grounding_resistance", found_value := none,
         expected_value := some "numeric resistance in ohms", location := rv.location }]
    | some raw_value =>
      if pyStrip raw_value = "" then
        [{ rule_id := rule_id, severity := FindingSeverity.WARNING,
           message := "Grounding resistance value is missing or empty - manual review required",
           field_name := "grounding_resistance", found_value := some raw_value,
           expected_value := some "numeric resistance in ohms", location := rv.location }]
      else
        match pyFloat raw_value with
        | none =>
          [{ rule_id := rule_id, severity := FindingSeverity.WARNING,
             message := "Could not parse grounding resistance '" ++ raw_value ++
               "' as numeric value - manual review required",
             field_name := "grounding_resistance", found_value := some raw_value,
             expected_value := some "numeric resistance in ohms", location := rv.location }]
        | some resistance =>
          if resistance < 0 then
            [{ rule_id := rule_id, severity := FindingSeverity.WARNING,
               message := "Grounding resistance " ++ pyNumStr resistance ++
                 " ohms is negative (invalid measurement) - manual review required",
               field_name := "grounding_resistance",
               found_value := some (pyNumStr resistance ++ " ohms"),
               expected_value := some ">= 0 ohms", location := rv.location }]
          else if resistance > RESISTANCE_ERROR_THRESHOLD then
            [{ rule_id := rule_id, severity := FindingSeverity.ERROR,
               message := "Grounding resistance " ++ pyNumStr resistance ++
                 " ohms exceeds maximum of " ++ pyNumStr RESISTANCE_ERROR_THRESHOLD ++ " ohms",
               field_name := "grounding_resistance",
               found_value := some (pyNumStr resistance ++ " ohms"),
               expected_value := some ("<= " ++ pyNumStr RESISTANCE_ERROR_THRESHOLD ++ " ohms"),
               location := rv.location }]
          else if resistance > RESISTANCE_WARNING_THRESHOLD then
            [{ rule_id := rule_id, severity := FindingSeverity.WARNING,
               message := "Grounding resistance " ++ pyNumStr resistance ++
                 " ohms is borderline - review recommended (threshold: " ++
                 pyNumStr RESISTANCE_WARNING_THRESHOLD ++ " ohms)",
               field_name := "grounding_resistance",
               found_value := some (pyNumStr resistance ++ " ohms"),
               expected_value := some ("<= " ++ pyNumStr RESISTANCE_WARNING_THRESHOLD ++ " ohms"),
               location := rv.location }]
          else
            [{ rule_id := rule_id, severity := FindingSeverity.INFO,
               message := "Grounding resistance " ++ pyNumStr resistance ++
                 " ohms within acceptable range (<= " ++
                 pyNumStr RESISTANCE_WARNING_THRESHOLD ++ " ohms)",
               field_name := "grounding_resistance",
               found_value := some (pyNumStr resistance ++ " ohms"),
               expected_value := some ("<= " ++ pyNumStr RESISTANCE_WARNING_THRESHOLD ++ " ohms"),
               location := rv.location }]

/-! ## Test-method validator (src/domain/validators/test_method.py) -/

/-- Registry entry: aliases and context appropriateness flags. -/
structure MethodInfo where
  aliases : List String
  new_ok : Bool
  existing_ok : Bool
deriving DecidableEq, Repr

/-- `VALID_TEST_METHODS`: canonical methods with aliases and context flags,
in source (dict insertion) order. -/
def VALID_TEST_METHODS : List (String × MethodInfo) :=
  [("fall-of-potential", ⟨["fall of potential", "3-point", "three-point"], true, true⟩),
   ("slope", ⟨[], true, true⟩),
   ("clamp-on", ⟨["clamp on", "clamp"], false, true⟩),
   ("attached-rod", ⟨["attached rod"], true, true⟩),
   ("star-delta", ⟨["star delta"], true, true⟩)]

/-- `_normalize_method`: lowercase, strip, spaces to hyphens. -/
def normalize_method (method : String) : String :=
  pyReplaceSpaceHyphen (pyStrip (pyLower method))

/-- `_find_method_key`: canonical key for a normalized method string. -/
def find_method_key (normalized_method : String) : Option String :=
  if VALID_TEST_METHODS.any (fun e => e.1 == normalized_method) then some normalized_method
  else
    (VALID_TEST_METHODS.find? (fun e =>
      (e.2.aliases.map normalize_method).contains normalized_method)).map (fun e => e.1)

/-- Registry lookup `VALID_TEST_METHODS[method_key]` (the key always comes
from `find_method_key`, so the default is never reached). -/
def methodInfoOf (method_key : String) : MethodInfo :=
  ((VALID_TEST_METHODS.find? (fun e => e.1 == method_key)).map (fun e => e.2)).getD ⟨[], true, true⟩

/-- `validate_test_method`: the method must be documented, recognized and
appropriate for the installation context. -/
def validate_test_method (grounding : GroundingData)
    (rule_id : String := "GROUND-03") : List Finding :=
  match grounding.test_method with
  | none =>
    [{ rule_id := rule_id, severity := FindingSeverity.ERROR,
       message := "Test method not specified - must be documented for audit traceability",
       field_name := "test_method", found_value := none,
       expected_value := some "Documented test method (e.g., fall-of-potential, clamp-on)",
       location := none }]
  | some tm =>
    match tm.value with
    | none =>
      [{ rule_id := rule_id, severity := FindingSeverity.ERROR,
         message := "Test method value is empty - must be documented for audit traceability",
         field_name := "test_method", found_value := some (pyReprOpt none),
         expected_value := some "Documented test method (e.g., fall-of-potential, clamp-on)",
         location := tm.location }]
    | some raw_method =>
      if pyStrip raw_method = "" then
        [{ rule_id := rule_id, severity := FindingSeverity.ERROR,
           message := "Test method value is empty - must be documented for audit traceability",
           field_name := "test_method", found_value := some (pyReprOpt (some raw_method)),
           expected_value := some "Documented test method (e.g., fall-of-potential, clamp-on)",
           location := tm.location }]
      else
        match find_method_key (normalize_method raw_method) with
        | none =>
          [{ rule_id := rule_id, severity := FindingSeverity.WARNING,
             message := "Test method '" ++ raw_method ++
               "' is unrecognized - manual review required to verify validity",
             field_name := "test_method", found_value := some raw_method,
             expected_value := some "Recognized method: fall-of-potential, slope, clamp-on, attached-rod, star-delta",
             location := tm.location }]
        | some method_key =>
          let method_info := methodInfoOf method_key
          match grounding.installation_type with
          | none =>
            [{ rule_id := rule_id, severity := FindingSeverity.WARNING,
               message := "Test method '" ++ method_key ++
                 "' is valid but installation type context is missing - cannot verify method appropriateness",
               field_name := "test_method", found_value := some method_key,
               expected_value := some "Installation type context (new or existing)",
               location := tm.location }]
          | some it =>
            match it.value with
            | none =>
              [{ rule_id := rule_id, severity := FindingSeverity.WARNING,
                 message := "Test method '" ++ method_key ++
                   "' is valid but installation type context is empty - cannot verify method appropriateness",
                 field_name := "test_method", found_value := some method_key,
                 expected_value := some "Installation type context (new or existing)",
                 location := tm.location }]
            | some raw_context =>
              if pyStrip raw_context = "" then
                [{ rule_id := rule_id, severity := FindingSeverity.WARNING,
                   message := "Test method '" ++ method_key ++
                     "' is valid but installation type context is empty - cannot verify method appropriateness",
                   field_name := "test_method", found_value := some method_key,
                   expected_value := some "Installation type context (new or existing)",
                   location := tm.location }]
              else
                let normalized_context := pyStrip (pyLower raw_context)
                if normalized_context = "new" then
                  if !method_info.new_ok then
                    [{ rule_id := rule_id, severity := FindingSeverity.WARNING,
                       message := "Test method '" ++ method_key ++
                         "' is not recommended for new installations - fall-of-potential method is standard",
                       field_name := "test_method",
                       found_value := some (method_key ++ " (new installation)"),
                       expected_value := some "fall-of-potential or equivalent for new installations",
                       location := tm.location }]
                  else
                    [{ rule_id := rule_id, severity := FindingSeverity.INFO,
                       message := "Test method '" ++ method_key ++ "' is appropriate for " ++
                         normalized_context ++ " installation testing",
                       field_name := "test_method", found_value := some method_key,
                       expected_value := some ("Valid method for " ++ normalized_context ++ " installation"),
                       location := tm.location }]
                else if normalized_context = "existing" then
                  if !method_info.existing_ok then
                    [{ rule_id := rule_id, severity := FindingSeverity.WARNING,
                       message := "Test method '" ++ method_key ++
                         "' is not appropriate for existing installations",
                       field_name := "test_method",
                       found_value := some (method_key ++ " (existing installation)"),
                       expected_value := some "Appropriate method for existing installation testing",
                       location := tm.location }]
                  else
                    [{ rule_id := rule_id, severity := FindingSeverity.INFO,
                       message := "Test method '" ++ method_key ++ "' is appropriate for " ++
                         normalized_context ++ " installation testing",
                       field_name := "test_method", found_value := some method_key,
                       expected_value := some ("Valid method for " ++ normalized_context ++ " installation"),
                       location := tm.location }]
                else
                  [{ rule_id := rule_id, severity := FindingSeverity.WARNING,
                     message := "Test method '" ++ method_key ++ "' is valid but installation type '" ++
                       raw_context ++ "' is unrecognized - cannot verify method appropriateness",
                     field_name := "test_method", found_value := some method_key,
                     expected_value := some "Installation type: 'new' or 'existing'",
                     location := tm.location }]

/-! ## Family calibration wrappers (grounding_calibration.py, megger_calibration.py) -/

/-- `validate_grounding_calibration`: wrapper delegating to the shared
calibration validator with the `GROUND-01` rule id. -/
def validate_grounding_calibration (grounding : GroundingData) (test_date : PyDate)
    (rule_id : String := "GROUND-01") : List Finding :=
  match grounding.calibration with
  | none =>
    [{ rule_id := rule_id, severity := FindingSeverity.WARNING,
       message := "Grounding meter calibration information missing - manual review required",
       field_name := "grounding_calibration", found_value := none,
       expected_value := none, location := none }]
  | some cal => validate_calibration cal test_date rule_id

/-- `validate_megger_calibration`: wrapper delegating to the shared
calibration validator with the `MEGGER-01` rule id. -/
def validate_megger_calibration (megger : MeggerData) (test_date : PyDate)
    (rule_id : String := "MEGGER-01") : List Finding :=
  match megger.calibration with
  | none =>
    [{ rule_id := rule_id, severity := FindingSeverity.WARNING,
       message := "Megger calibration information missing - manual review required",
       field_name := "megger_calibration", found_value := none,
       expected_value := none, location := none }]
  | some cal => validate_calibration cal test_date rule_id

/-! ## Megger test-voltage validator (src/domain/validators/megger_voltage.py) -/

/-- A `VOLTAGE_CLASS_TEST_VOLTAGES` row; `max_equip = none` encodes the
open-ended `float('inf')` final row. -/
structure VoltClass where
  max_equip : Option ℚ
  recommended_test : ℚ
  max_safe_test : ℚ
deriving DecidableEq, Repr

/-- Test voltage ranges by equipment voltage class, in source order. -/
def VOLTAGE_CLASS_TEST_VOLTAGES : List VoltClass :=
  [⟨some 250, 500, 500⟩, ⟨some 500, 1000, 1000⟩, ⟨some 1000, 1000, 2500⟩, ⟨none, 2500, 5000⟩]

/-- `equipment_voltage <= max_equip`, with `none` as `float('inf')`. -/
def leMaxEquip (v : ℚ) : Option ℚ → Bool
  | some b => decide (v ≤ b)
  | none => true

/-- `_get_voltage_class`: first row whose bound is at least the equipment
voltage. -/
def get_voltage_class (equipment_voltage : ℚ) : Option VoltClass :=
  VOLTAGE_CLASS_TEST_VOLTAGES.find? (fun row => leMaxEquip equipment_voltage row.max_equip)

/-- `validate_test_voltage`: test voltage appropriateness for the equipment
rating. -/
def validate_test_voltage (megger : MeggerData)
    (rule_id : String := "MEGGER-02") : List Finding :=
  match megger.equipment_voltage_rating with
  | none =>
    [{ rule_id := rule_id, severity := FindingSeverity.WARNING,
       message := "Equipment voltage rating missing - cannot validate test voltage appropriateness",
       field_name := "equipment_voltage_rating", found_value := none,
       expected_value := some "equipment voltage rating in volts", location := none }]
  | some evr =>
    match evr.value with
    | none =>
      [{ rule_id := rule_id, severity := FindingSeverity.WARNING,
         message := "Equipment voltage rating value is empty - cannot validate test voltage",
         field_name := "equipment_voltage_rating", found_value := none,
         expected_value := some "equipment voltage rating in volts", location := evr.location }]
    | some evr_value =>
      match megger.test_voltage with
      | none =>
        [{ rule_id := rule_id, severity := FindingSeverity.WARNING,
           message := "Test voltage missing - cannot validate voltage appropriateness",
           field_name := "test_voltage", found_value := none,
           expected_value := some "test voltage in volts", location := none }]
      | some tv =>
        match tv.value with
        | none =>
          [{ rule_id := rule_id, severity := FindingSeverity.WARNING,
             message := "Test voltage value is empty - cannot validate voltage appropriateness",
             field_name := "test_voltage", found_value := none,
             expected_value := some "test voltage in volts", location := tv.location }]
        | some tv_value =>
          match pyFloat evr_value with
          | none =>
            [{ rule_id := rule_id, severity := FindingSeverity.WARNING,
               message := "Could not parse equipment voltage rating '" ++ evr_value ++
                 "' - manual review required",
               field_name := "equipment_voltage_rating", found_value := some evr_value,
               expected_value := some "numeric voltage value", location := evr.location }]
          | some equipment_voltage =>
            match pyFloat tv_value with
            | none =>
              [{ rule_id := rule_id, severity := FindingSeverity.WARNING,
                 message := "Could not parse test voltage '" ++ tv_value ++
                   "' - manual review required",
                 field_name := "test_voltage", found_value := some tv_value,
                 expected_value := some "numeric voltage value", location := tv.location }]
            | some test_voltage =>
              match get_voltage_class equipment_voltage with
              | none =>
                [{ rule_id := rule_id, severity := FindingSeverity.WARNING,
                   message := "Unknown voltage class for equipment rated " ++
                     pyNumStr equipment_voltage ++ "V - manual review required",
                   field_name := "equipment_voltage_rating",
                   found_value := some (pyNumStr equipment_voltage ++ "V"),
                   expected_value := some "standard voltage class", location := evr.location }]
              | some vclass =>
                if test_voltage > vclass.max_safe_test then
                  [{ rule_id := rule_id, severity := FindingSeverity.ERROR,
                     message := "Test voltage " ++ pyNumStr test_voltage ++
                       "V too high for equipment rated " ++ pyNumStr equipment_voltage ++
                       "V (max safe: " ++ pyNumStr vclass.max_safe_test ++
                       "V) - potential equipment damage",
                     field_name := "test_voltage",
                     found_value := some (pyNumStr test_voltage ++ "V"),
                     expected_value := some ("<= " ++ pyNumStr vclass.max_safe_test ++ "V"),
                     location := tv.location }]
                else if test_voltage < vclass.recommended_test then
                  [{ rule_id := rule_id, severity := FindingSeverity.WARNING,
                     message := "Test voltage " ++ pyNumStr test_voltage ++
                       "V below recommended " ++ pyNumStr vclass.recommended_test ++
                       "V for equipment rated " ++ pyNumStr equipment_voltage ++
                       "V - may not reveal insulation defects",
                     field_name := "test_voltage",
                     found_value := some (pyNumStr test_voltage ++ "V"),
                     expected_value := some (">= " ++ pyNumStr vclass.recommended_test ++ "V"),
                     location := tv.location }]
                else
                  [{ rule_id := rule_id, severity := FindingSeverity.INFO,
                     message := "Test voltage " ++ pyNumStr test_voltage ++
                       "V appropriate for equipment rated " ++ pyNumStr equipment_voltage ++ "V",
                     field_name := "test_voltage",
                     found_value := some (pyNumStr test_voltage ++ "V"),
                     expected_value := some (pyNumStr vclass.recommended_test ++ "V - " ++
                       pyNumStr vclass.max_safe_test ++ "V"),
                     location := tv.location }]

/-! ## Megger insulation-resistance validator (src/domain/validators/megger_insulation.py) -/

/-- Minimum insulation resistance by voltage class, in source order;
`none` encodes the open-ended `float('inf')` final row. -/
def VOLTAGE_CLASS_MIN_RESISTANCE : List (Option ℚ × ℚ) :=
  [(some 250, 0.25), (some 500, 0.5), (some 1000, 1.0), (none, 1.0)]

/-- `_get_min_resistance`: minimum required insulation resistance for the
equipment voltage. -/
def get_min_resistance (equipment_voltage : ℚ) : Option ℚ :=
  (VOLTAGE_CLASS_MIN_RESISTANCE.find? (fun row => leMaxEquip equipment_voltage row.1)).map
    (fun row => row.2)

/-- `validate_insulation_resistance`: measured resistance must meet the class
minimum. -/
def validate_insulation_resistance (megger : MeggerData)
    (rule_id : String := "MEGGER-03") : List Finding :=
  match megger.equipment_voltage_rating with
  | none =>
    [{ rule_id := rule_id, severity := FindingSeverity.WARNING,
       message := "Equipment voltage rating missing - cannot determine minimum insulation resistance requirement",
       field_name := "equipment_voltage_rating", found_value := none,
       expected_value := some "equipment voltage rating in volts", location := none }]
  | some evr =>
    match evr.value with
    | none =>
      [{ rule_id := rule_id, severity := FindingSeverity.WARNING,
         message := "Equipment voltage rating value is empty - cannot determine minimum resistance",
         field_name := "equipment_voltage_rating", found_value := none,
         expected_value := some "equipment voltage rating in volts", location := evr.location }]
    | some evr_value =>
      match megger.insulation_resistance with
      | none =>
        [{ rule_id := rule_id, severity := FindingSeverity.WARNING,
           message := "Insulation resistance value missing - cannot validate minimum requirement",
           field_name := "insulation_resistance", found_value := none,
           expected_value := some "insulation resistance in megohms", location := none }]
      | some ir =>
        match ir.value with
        | none =>
          [{ rule_id := rule_id, severity := FindingSeverity.WARNING,
             message := "Insulation resistance value is empty - cannot validate minimum requirement",
             field_name := "insulation_resistance", found_value := none,
             expected_value := some "insulation resistance in megohms", location := ir.location }]
        | some ir_value =>
          match pyFloat evr_value with
          | none =>
            [{ rule_id := rule_id, severity := FindingSeverity.WARNING,
               message := "Could not parse equipment voltage rating '" ++ evr_value ++
                 "' - manual review required",
               field_name := "equipment_voltage_rating", found_value := some evr_value,
               expected_value := some "numeric voltage value", location := evr.location }]
          | some equipment_voltage =>
            match pyFloat ir_value with
            | none =>
              [{ rule_id := rule_id, severity := FindingSeverity.WARNING,
                 message := "Could not parse insulation resistance '" ++ ir_value ++
                   "' - manual review required",
                 field_name := "insulation_resistance", found_value := some ir_value,
                 expected_value := some "numeric resistance value in megohms",
                 location := ir.location }]
            | some resistance =>
              match get_min_resistance equipment_voltage with
              | none =>
                [{ rule_id := rule_id, severity := FindingSeverity.WARNING,
                   message := "Unknown voltage class for equipment rated " ++
                     pyNumStr equipment_voltage ++ "V - manual review required",
                   field_name := "equipment_voltage_rating",
                   found_value := some (pyNumStr equipment_voltage ++ "V"),
                   expected_value := some "standard voltage class", location := evr.location }]
              | some min_resistance =>
                if resistance < min_resistance then
                  [{ rule_id := rule_id, severity := FindingSeverity.WARNING,
                     message := "Insulation resistance " ++ pyNumStr resistance ++
                       " Mohm below minimum " ++ pyNumStr min_resistance ++
                       " Mohm for equipment rated " ++ pyNumStr equipment_voltage ++
                       "V - review required",
                     field_name := "insulation_resistance",
                     found_value := some (pyNumStr resistance ++ " Mohm"),
                     expected_value := some (">= " ++ pyNumStr min_resistance ++ " Mohm"),
                     location := ir.location }]
                else
                  [{ rule_id := rule_id, severity := FindingSeverity.INFO,
                     message := "Insulation resistance " ++ pyNumStr resistance ++
                       " Mohm meets minimum requirement (" ++ pyNumStr min_resistance ++
                       " Mohm) for equipment rated " ++ pyNumStr equipment_voltage ++ "V",
                     field_name := "insulation_resistance",
                     found_value := some (pyNumStr resistance ++ " Mohm"),
                     expected_value := some (">= " ++ pyNumStr min_resistance ++ " Mohm"),
                     location := ir.location }]

/-! ## Helper lemmas -/

/-- Characterization of `compute_status` by the severities present. -/
theorem compute_status_eq (l : List Finding) :
    compute_status l =
      if ∃ g ∈ l, g.severity = FindingSeverity.ERROR then ValidationStatus.REJECTED
      else if ∃ g ∈ l, g.severity = FindingSeverity.WARNING then ValidationStatus.REVIEW_NEEDED
      else ValidationStatus.APPROVED := by
  by_cases he : ∃ g ∈ l, g.severity = FindingSeverity.ERROR
  · have ha : l.any (fun f => f.severity == FindingSeverity.ERROR) = true := by
      rw [List.any_eq_true]
      obtain ⟨g, hg, hs⟩ := he
      exact ⟨g, hg, by simp [hs]⟩
    simp [compute_status, ha, he]
  · have ha : l.any (fun f => f.severity == FindingSeverity.ERROR) = false := by
      rw [List.any_eq_false]
      intro g hg hs
      exact he ⟨g, hg, by simpa using hs⟩
    by_cases hw : ∃ g ∈ l, g.severity = FindingSeverity.WARNING
    · have hb : l.any (fun f => f.severity == FindingSeverity.WARNING) = true := by
        rw [List.any_eq_true]
        obtain ⟨g, hg, hs⟩ := hw
        exact ⟨g, hg, by simp [hs]⟩
      simp [compute_status, ha, hb, he, hw]
    · have hb : l.any (fun f => f.severity == FindingSeverity.WARNING) = false := by
        rw [List.any_eq_false]
        intro g hg hs
        exact hw ⟨g, hg, by simpa using hs⟩
      simp [compute_status, ha, hb, he, hw]

theorem statusRank_le_two (s : ValidationStatus) : statusRank s ≤ 2 := by
  cases s <;> simp [statusRank]

/-! ## Claim C1 -/

/-- C1: `compute_status` is a pure, order-independent reduction of a finding
list to a verdict: any ERROR present gives REJECTED; else any WARNING gives
REVIEW_NEEDED; else (including the empty list) APPROVED.  It is invariant
under permutation and duplication, appending an ERROR finding never decreases
the status under `APPROVED < REVIEW_NEEDED < REJECTED`, and an all-INFO list
yields APPROVED. -/
theorem C1_compute_status_reduction (l l₂ : List Finding) (f : Finding) :
    compute_status [] = ValidationStatus.APPROVED ∧
    ((∃ g ∈ l, g.severity = FindingSeverity.ERROR) →
      compute_status l = ValidationStatus.REJECTED) ∧
    ((∀ g ∈ l, g.severity ≠ FindingSeverity.ERROR) →
      (∃ g ∈ l, g.severity = FindingSeverity.WARNING) →
      compute_status l = ValidationStatus.REVIEW_NEEDED) ∧
    ((∀ g ∈ l, g.severity ≠ FindingSeverity.ERROR ∧ g.severity ≠ FindingSeverity.WARNING) →
      compute_status l = ValidationStatus.APPROVED) ∧
    (l.Perm l₂ → compute_status l = compute_status l₂) ∧
    compute_status (l ++ l) = compute_status l ∧
    (f.severity = FindingSeverity.ERROR →
      statusRank (compute_status l) ≤ statusRank (compute_status (l ++ [f]))) ∧
    ((∀ g ∈ l, g.severity = FindingSeverity.INFO) →
      compute_status l = ValidationStatus.APPROVED) := by
  refine ⟨by simp [compute_status], ?_, ?_, ?_, ?_, ?_, ?_, ?_⟩
  · intro he
    rw [compute_status_eq, if_pos he]
  · intro hne hw
    rw [compute_status_eq, if_neg (by rintro ⟨g, hg, hs⟩; exact hne g hg hs), if_pos hw]
  · intro h
    rw [compute_status_eq, if_neg (by rintro ⟨g, hg, hs⟩; exact (h g hg).1 hs),
      if_neg (by rintro ⟨g, hg, hs⟩; exact (h g hg).2 hs)]
  · intro hp
    rw [compute_status_eq, compute_status_eq]
    simp only [hp.mem_iff]
  · rw [compute_status_eq, compute_status_eq]
    simp only [List.mem_append, or_self]
  · intro hf
    have : compute_status (l ++ [f]) = ValidationStatus.REJECTED := by
      rw [compute_status_eq, if_pos ⟨f, by simp, hf⟩]
    rw [this]
    exact statusRank_le_two _
  · intro h
    rw [compute_status_eq,
      if_neg (by rintro ⟨g, hg, hs⟩; rw [h g hg] at hs; exact FindingSeverity.noConfusion hs),
      if_neg (by rintro ⟨g, hg, hs⟩; rw [h g hg] at hs; exact FindingSeverity.noConfusion hs)]

/-- Witness for C1 at concrete finding lists. -/
theorem C1_compute_status_reduction_witness :
    compute_status
        [{ rule_id := "VAL-01", severity := FindingSeverity.INFO, message := "m", field_name := "f" },
         { rule_id := "VAL-02", severity := FindingSeverity.WARNING, message := "m", field_name := "f" }] =
      ValidationStatus.REVIEW_NEEDED ∧
    compute_status
        [{ rule_id := "VAL-01", severity := FindingSeverity.INFO, message := "m", field_name := "f" }] =
      ValidationStatus.APPROVED := by
  constructor
  · exact (C1_compute_status_reduction
      [{ rule_id := "VAL-01", severity := FindingSeverity.INFO, message := "m", field_name := "f" },
       { rule_id := "VAL-02", severity := FindingSeverity.WARNING, message := "m", field_name := "f" }]
      [] { rule_id := "r", severity := FindingSeverity.ERROR, message := "m", field_name := "f" }).2.2.1
      (by decide) (by decide)
  · exact (C1_compute_status_reduction
      [{ rule_id := "VAL-01", severity := FindingSeverity.INFO, message := "m", field_name := "f" }]
      [] { rule_id := "r", severity := FindingSeverity.ERROR, message := "m", field_name := "f" }).2.2.2.2.2.2.2
      (by decide)

/-! ## Claim C10 -/

/-- C10: every validator stamps the `rule_id` argument it was invoked with on
every finding it returns — in particular the shared calibration validator
reused under GROUND-01 / MEGGER-01 / THERMO-03, and the serial and phase-delta
validators. -/
theorem C10_rule_id_stamping :
    (∀ cal td rid, (validate_calibration cal td rid).all (fun f => f.rule_id == rid) = true) ∧
    (∀ fields rid, (validate_serial_consistency fields rid).all (fun f => f.rule_id == rid) = true) ∧
    (∀ t rid, (validate_camera_config t rid).all (fun f => f.rule_id == rid) = true) ∧
    (∀ rs rid, (validate_phase_delta rs rid).all (fun f => f.rule_id == rid) = true) ∧
    (∀ g rid, (validate_grounding_resistance g rid).all (fun f => f.rule_id == rid) = true) ∧
    (∀ g rid, (validate_test_method g rid).all (fun f => f.rule_id == rid) = true) ∧
    (∀ g td rid, (validate_grounding_calibration g td rid).all (fun f => f.rule_id == rid) = true) ∧
    (∀ m td rid, (validate_megger_calibration m td rid).all (fun f => f.rule_id == rid) = true) ∧
    (∀ m rid, (validate_test_voltage m rid).all (fun f => f.rule_id == rid) = true) ∧
    (∀ m rid, (validate_insulation_resistance m rid).all (fun f => f.rule_id == rid) = true) := by
  have hcal : ∀ cal td rid,
      (validate_calibration cal td rid).all (fun f => f.rule_id == rid) = true := by
    intro cal td rid
    unfold validate_calibration
    repeat' split
    all_goals simp
  refine ⟨hcal, ?_, ?_, ?_, ?_, ?_, ?_, ?_, ?_, ?_⟩
  · intro fields rid
    simp only [validate_serial_consistency]
    repeat' split
    all_goals simp [List.all_eq_true, List.mem_cons, List.mem_map]
    all_goals (intros; subst_vars; rfl)
  · intro t rid
    unfold validate_camera_config
    repeat' split
    all_goals simp
  · intro rs rid
    simp only [validate_phase_delta]
    repeat' split
    all_goals simp [List.all_eq_true, List.mem_cons, List.mem_append]
  · intro g rid
    unfold validate_grounding_resistance
    repeat' split
    all_goals simp
  · intro g rid
    simp only [validate_test_method]
    repeat' split
    all_goals simp
  · intro g td rid
    unfold validate_grounding_calibration
    split
    · simp
    · exact hcal _ td rid
  · intro m td rid
    unfold validate_megger_calibration
    split
    · simp
    · exact hcal _ td rid
  · intro m rid
    unfold validate_test_voltage
    repeat' split
    all_goals simp
  · intro m rid
    unfold validate_insulation_resistance
    repeat' split
    all_goals simp

/-! ## Exception-freedom of the date parser -/

/-- `r` is not an escaping `TypeError` (the only exception kind the date
parsers' `except (ValueError, IndexError)` clauses would re-raise). -/
def noTE {α : Type} (r : Except PyExc α) : Prop := r ≠ Except.error PyExc.typeError

theorem pyInt_noTE (s : String) : noTE (pyInt s) := by
  unfold pyInt noTE
  repeat' split
  all_goals simp

theorem pyIndex_noTE {α : Type} (l : List α) (i : Nat) : noTE (pyIndex l i) := by
  unfold pyIndex noTE
  split
  all_goals simp

theorem pyDateNew_noTE (y m d : Int) : noTE (pyDateNew y m d) := by
  unfold pyDateNew noTE
  split
  all_goals simp

theorem stepBind_noTE {α β : Type} {x : Except PyExc α} {f : α → Except PyExc β}
    (hx : noTE x) (hf : ∀ a, noTE (f a)) : noTE (stepBind x f) := by
  cases x with
  | ok a => exact hf a
  | error e => simpa [stepBind, noTE] using hx

theorem catchParse_ok {r : Except PyExc PyDate} (h : noTE r) :
    ∃ o, catchParse r = Except.ok o := by
  cases r with
  | ok d => exact ⟨some d, rfl⟩
  | error e =>
    cases e with
    | valueError => exact ⟨none, rfl⟩
    | indexError => exact ⟨none, rfl⟩
    | typeError => exact absurd rfl h

theorem parse_iso_ok (v : String) : ∃ o, parse_iso v = Except.ok o := by
  unfold parse_iso
  apply catchParse_ok
  apply stepBind_noTE (pyIndex_noTE _ _); intro p0
  apply stepBind_noTE (pyInt_noTE _); intro y
  apply stepBind_noTE (pyIndex_noTE _ _); intro p1
  apply stepBind_noTE (pyInt_noTE _); intro m
  apply stepBind_noTE (pyIndex_noTE _ _); intro p2
  apply stepBind_noTE (pyInt_noTE _); intro d
  exact pyDateNew_noTE _ _ _

theorem parse_dd_mm_yyyy_ok (v : String) : ∃ o, parse_dd_mm_yyyy v = Except.ok o := by
  unfold parse_dd_mm_yyyy
  apply catchParse_ok
  apply stepBind_noTE (pyIndex_noTE _ _); intro p0
  apply stepBind_noTE (pyInt_noTE _); intro d
  apply stepBind_noTE (pyIndex_noTE _ _); intro p1
  apply stepBind_noTE (pyInt_noTE _); intro m
  apply stepBind_noTE (pyIndex_noTE _ _); intro p2
  apply stepBind_noTE (pyInt_noTE _); intro y
  exact pyDateNew_noTE _ _ _

theorem parse_mm_dd_yy_ok (v : String) : ∃ o, parse_mm_dd_yy v = Except.ok o := by
  unfold parse_mm_dd_yy
  apply catchParse_ok
  apply stepBind_noTE (pyIndex_noTE _ _); intro p0
  apply stepBind_noTE (pyInt_noTE _); intro m
  apply stepBind_noTE (pyIndex_noTE _ _); intro p1
  apply stepBind_noTE (pyInt_noTE _); intro d
  apply stepBind_noTE (pyIndex_noTE _ _); intro p2
  apply stepBind_noTE (pyInt_noTE _); intro y
  exact pyDateNew_noTE _ _ _

theorem try_format_ok (v : String) (f : DateFormat) :
    ∃ o, try_format v f = Except.ok o := by
  cases f with
  | ISO => exact parse_iso_ok v
  | DD_MM_YYYY => exact parse_dd_mm_yyyy_ok v
  | MM_DD_YY => exact parse_mm_dd_yy_ok v

theorem parse_dateE_ok (v : Option String) (h : Option DateFormat) :
    ∃ o, parse_dateE v h = Except.ok o := by
  cases v with
  | none => exact ⟨none, rfl⟩
  | some raw =>
    by_cases hv : pyStrip raw = ""
    · exact ⟨none, by simp [parse_dateE, hv]⟩
    · have hauto : ∃ o,
          (match detect_format (pyStrip raw) with
            | some fmt => try_format (pyStrip raw) fmt
            | none => Except.ok none) = Except.ok o := by
        cases hd : detect_format (pyStrip raw) with
        | none => exact ⟨none, rfl⟩
        | some fmt => simpa using try_format_ok (pyStrip raw) fmt
      obtain ⟨oa, hoa⟩ := hauto
      cases h with
      | none => exact ⟨oa, by simpa [parse_dateE, hv] using hoa⟩
      | some hh =>
        obtain ⟨oh, hoh⟩ := try_format_ok (pyStrip raw) hh
        cases oh with
        | some d => exact ⟨some d, by simp [parse_dateE, hv, hoh]⟩
        | none => exact ⟨oa, by simpa [parse_dateE, hv, hoh] using hoa⟩

/-- The exception channel of `parse_date` always carries a normal return. -/
theorem parse_dateE_eq_ok (v : Option String) (h : Option DateFormat) :
    parse_dateE v h = Except.ok (parse_date v h) := by
  obtain ⟨o, ho⟩ := parse_dateE_ok v h
  unfold parse_date
  rw [ho]
  rfl

/-! ## Validity of every date the parser returns -/

theorem pyDateNew_valid {y m d : Int} {dd : PyDate}
    (h : pyDateNew y m d = Except.ok dd) : dd.valid = true := by
  unfold pyDateNew at h
  split at h
  · injection h with h
    subst h
    assumption
  · exact absurd h (by simp)

theorem catchParse_some {r : Except PyExc PyDate} {d : PyDate}
    (h : catchParse r = Except.ok (some d)) : r = Except.ok d := by
  cases r with
  | ok d' => injection h with h; injection h with h; rw [h]
  | error e => cases e <;> simp [catchParse] at h

theorem stepBind_ok {α β : Type} {x : Except PyExc α} {f : α → Except PyExc β}
    {b : β} (h : stepBind x f = Except.ok b) : ∃ a, x = Except.ok a ∧ f a = Except.ok b := by
  cases x with
  | ok a => exact ⟨a, rfl, h⟩
  | error e => simp [stepBind] at h

theorem parse_iso_valid {v : String} {d : PyDate}
    (h : parse_iso v = Except.ok (some d)) : d.valid = true := by
  unfold parse_iso at h
  have h := catchParse_some h
  obtain ⟨p0, _, h⟩ := stepBind_ok h
  obtain ⟨y, _, h⟩ := stepBind_ok h
  obtain ⟨p1, _, h⟩ := stepBind_ok h
  obtain ⟨m, _, h⟩ := stepBind_ok h
  obtain ⟨p2, _, h⟩ := stepBind_ok h
  obtain ⟨dy, _, h⟩ := stepBind_ok h
  exact pyDateNew_valid h

theorem parse_dd_mm_yyyy_valid {v : String} {d : PyDate}
    (h : parse_dd_mm_yyyy v = Except.ok (some d)) : d.valid = true := by
  unfold parse_dd_mm_yyyy at h
  have h := catchParse_some h
  obtain ⟨p0, _, h⟩ := stepBind_ok h
  obtain ⟨dy, _, h⟩ := stepBind_ok h
  obtain ⟨p1, _, h⟩ := stepBind_ok h
  obtain ⟨m, _, h⟩ := stepBind_ok h
  obtain ⟨p2, _, h⟩ := stepBind_ok h
  obtain ⟨y, _, h⟩ := stepBind_ok h
  exact pyDateNew_valid h

theorem parse_mm_dd_yy_valid {v : String} {d : PyDate}
    (h : parse_mm_dd_yy v = Except.ok (some d)) : d.valid = true := by
  unfold parse_mm_dd_yy at h
  have h := catchParse_some h
  obtain ⟨p0, _, h⟩ := stepBind_ok h
  obtain ⟨m, _, h⟩ := stepBind_ok h
  obtain ⟨p1, _, h⟩ := stepBind_ok h
  obtain ⟨dy, _, h⟩ := stepBind_ok h
  obtain ⟨p2, _, h⟩ := stepBind_ok h
  obtain ⟨y, _, h⟩ := stepBind_ok h
  exact pyDateNew_valid h

theorem try_format_valid {v : String} {f : DateFormat} {d : PyDate}
    (h : try_format v f = Except.ok (some d)) : d.valid = true := by
  cases f with
  | ISO => exact parse_iso_valid h
  | DD_MM_YYYY => exact parse_dd_mm_yyyy_valid h
  | MM_DD_YY => exact parse_mm_dd_yy_valid h

theorem parse_date_valid {v : Option String} {h : Option DateFormat} {d : PyDate}
    (hd : parse_date v h = some d) : d.valid = true := by
  have he : parse_dateE v h = Except.ok (some d) := by
    rw [parse_dateE_eq_ok, hd]
  cases v with
  | none => simp [parse_dateE] at he
  | some raw =>
    by_cases hv : pyStrip raw = ""
    · simp [parse_dateE, hv] at he
    · have hauto : ∀ (hx : (match detect_format (pyStrip raw) with
            | some fmt => try_format (pyStrip raw) fmt
            | none => Except.ok none) = Except.ok (some d)), d.valid = true := by
        intro hx
        cases hdf : detect_format (pyStrip raw) with
        | none => rw [hdf] at hx; simp at hx
        | some fmt => rw [hdf] at hx; exact try_format_valid hx
      cases h with
      | none =>
        apply hauto
        simpa [parse_dateE, hv] using he
      | some hh =>
        simp only [parse_dateE, hv, if_neg hv] at he
        obtain ⟨oh, hoh⟩ := try_format_ok (pyStrip raw) hh
        cases oh with
        | some d' =>
          rw [hoh] at he
          simp at he
          subst he
          exact try_format_valid hoh
        | none =>
          rw [hoh] at he
          apply hauto
          simpa using he

/-! ## Claim C5 -/

/-- C5: `parse_date` never raises: for every input (null, blank,
whitespace-only, malformed, or calendrically invalid such as Feb 31), with or
without a hint, it returns normally with a date or null; every date it does
return is calendrically valid, and the unparseable examples all yield null. -/
theorem C5_parse_date_never_raises (v : Option String) (h : Option DateFormat) :
    parse_dateE v h = Except.ok (parse_date v h) ∧
    (∀ d, parse_date v h = some d → d.valid = true) ∧
    parse_date none h = none ∧
    parse_date (some "") h = none ∧
    parse_date (some "   ") h = none ∧
    parse_date (some "31/02/2024") none = none ∧
    parse_date (some "not a date") none = none := by
  refine ⟨parse_dateE_eq_ok v h, fun d hd => parse_date_valid hd, rfl, ?_, ?_, by decide, by decide⟩
  · have : pyStrip "" = "" := by decide
    simp [parse_date, parse_dateE, this, exceptValue]
  · have : pyStrip "   " = "" := by decide
    simp [parse_date, parse_dateE, this, exceptValue]

/-- Witness for C5 at a concrete parseable input. -/
theorem C5_parse_date_never_raises_witness :
    PyDate.valid { year := 2024, month := 2, day := 1 } = true :=
  (C5_parse_date_never_raises (some "01/02/2024") none).2.1
    { year := 2024, month := 2, day := 1 } (by decide)

/-! ## Split/strip lemmas -/

theorem splitCh_ne_nil (sep : Char) (l : List Char) : splitCh sep l ≠ [] := by
  induction l with
  | nil => simp [splitCh]
  | cons c rest ih =>
    simp only [splitCh]
    split
    · simp
    · split <;> simp

theorem joinCh_splitCh (sep : Char) (l : List Char) : joinCh sep (splitCh sep l) = l := by
  induction l with
  | nil => rfl
  | cons c rest ih =>
    simp only [splitCh]
    split
    · rename_i hc
      cases hr : splitCh sep rest with
      | nil => exact absurd hr (splitCh_ne_nil sep rest)
      | cons g gs =>
        rw [hr] at ih
        subst hc
        simp [joinCh, ih]
    · cases hr : splitCh sep rest with
      | nil => exact absurd hr (splitCh_ne_nil sep rest)
      | cons g gs =>
        rw [hr] at ih
        cases gs with
        | nil => simpa [joinCh] using congrArg (fun t => c :: t) ih
        | cons g2 gs2 => simpa [joinCh] using congrArg (fun t => c :: t) ih

theorem splitCh_of_not_mem {sep : Char} {l : List Char} (h : sep ∉ l) :
    splitCh sep l = [l] := by
  induction l with
  | nil => rfl
  | cons c rest ih =>
    have hc : c ≠ sep := fun hc => h (by simp [hc])
    have hrest : sep ∉ rest := fun hr => h (by simp [hr])
    simp only [splitCh, if_neg (fun hcc => hc hcc), ih hrest]

theorem dropWhile_head_not (p : Char → Bool) (l : List Char) :
    ∀ c, (l.dropWhile p).head? = some c → p c = false := by
  induction l with
  | nil => intro c hc; simp at hc
  | cons a rest ih =>
    intro c hc
    by_cases ha : p a
    · rw [List.dropWhile_cons_of_pos ha] at hc
      exact ih c hc
    · rw [List.dropWhile_cons_of_neg ha] at hc
      simp at hc
      subst hc
      simpa using ha

theorem dropWhile_eq_self_of_head (p : Char → Bool) (l : List Char)
    (h : ∀ c, l.head? = some c → p c = false) : l.dropWhile p = l := by
  cases l with
  | nil => rfl
  | cons a rest =>
    have ha : p a = false := h a rfl
    simp [List.dropWhile_cons, ha]

theorem dropWhile_idem (p : Char → Bool) (l : List Char) :
    (l.dropWhile p).dropWhile p = l.dropWhile p :=
  dropWhile_eq_self_of_head p _ (dropWhile_head_not p l)

theorem dropWhile_getLast? (p : Char → Bool) (l : List Char)
    (h : l.dropWhile p ≠ []) : (l.dropWhile p).getLast? = l.getLast? := by
  induction l with
  | nil => simp at h
  | cons a rest ih =>
    by_cases ha : p a
    · rw [List.dropWhile_cons_of_pos ha] at h ⊢
      have hrest : rest ≠ [] := by
        intro hr
        rw [hr] at h
        simp at h
      rw [ih h]
      cases rest with
      | nil => exact absurd rfl hrest
      | cons b t => rw [List.getLast?_cons_cons]
    · rw [List.dropWhile_cons_of_neg ha]

theorem stripChars_idem (l : List Char) : stripChars (stripChars l) = stripChars l := by
  unfold stripChars
  set A := l.dropWhile pySpaceChar with hA
  set B := A.reverse.dropWhile pySpaceChar with hB
  have h1 : B.reverse.dropWhile pySpaceChar = B.reverse := by
    apply dropWhile_eq_self_of_head
    intro c hc
    rw [List.head?_reverse] at hc
    cases hBnil : B with
    | nil => rw [hBnil] at hc; simp at hc
    | cons g gs =>
      have hBne : B ≠ [] := by rw [hBnil]; simp
      have h2 : B.getLast? = A.reverse.getLast? := by
        rw [hB]
        exact dropWhile_getLast? _ _ (by rw [← hB]; exact hBne)
      rw [h2, List.getLast?_reverse] at hc
      exact dropWhile_head_not pySpaceChar l c hc
  rw [h1, List.reverse_reverse, hB, dropWhile_idem]

theorem pyStrip_idem (s : String) : pyStrip (pyStrip s) = pyStrip s := by
  unfold pyStrip
  exact congrArg String.mk (stripChars_idem s.toList)

/-! ## Pattern exclusivity -/

/-- Decompose a successful `ddmmyyyyPattern` match. -/
theorem ddmm_split {v : String} (h : ddmmyyyyPattern v = true) :
    ∃ a b c, splitCh '/' v.toList = [a, b, c] ∧
      digitGroup a 1 2 = true ∧ digitGroup b 1 2 = true ∧ digitGroup c 4 4 = true := by
  unfold ddmmyyyyPattern at h
  cases hs : splitCh '/' v.toList with
  | nil => rw [hs] at h; simp at h
  | cons a t =>
    cases t with
    | nil => rw [hs] at h; simp at h
    | cons b t2 =>
      cases t2 with
      | nil => rw [hs] at h; simp at h
      | cons c t3 =>
        cases t3 with
        | nil =>
          rw [hs] at h
          simp only [Bool.and_eq_true] at h
          exact ⟨a, b, c, rfl, h.1.1, h.1.2, h.2⟩
        | cons d t4 => rw [hs] at h; simp at h

/-- Decompose a successful `mmddyyPattern` match. -/
theorem mmdd_split {v : String} (h : mmddyyPattern v = true) :
    ∃ a b c, splitCh '/' v.toList = [a, b, c] ∧
      digitGroup a 1 2 = true ∧ digitGroup b 1 2 = true ∧ digitGroup c 2 2 = true := by
  unfold mmddyyPattern at h
  cases hs : splitCh '/' v.toList with
  | nil => rw [hs] at h; simp at h
  | cons a t =>
    cases t with
    | nil => rw [hs] at h; simp at h
    | cons b t2 =>
      cases t2 with
      | nil => rw [hs] at h; simp at h
      | cons c t3 =>
        cases t3 with
        | nil =>
          rw [hs] at h
          simp only [Bool.and_eq_true] at h
          exact ⟨a, b, c, rfl, h.1.1, h.1.2, h.2⟩
        | cons d t4 => rw [hs] at h; simp at h

/-- Decompose a successful `isoPattern` match. -/
theorem iso_split {v : String} (h : isoPattern v = true) :
    ∃ a b c, splitCh '-' v.toList = [a, b, c] ∧
      digitGroup a 4 4 = true ∧ digitGroup b 2 2 = true ∧ digitGroup c 2 2 = true := by
  unfold isoPattern at h
  cases hs : splitCh '-' v.toList with
  | nil => rw [hs] at h; simp at h
  | cons a t =>
    cases t with
    | nil => rw [hs] at h; simp at h
    | cons b t2 =>
      cases t2 with
      | nil => rw [hs] at h; simp at h
      | cons c t3 =>
        cases t3 with
        | nil =>
          rw [hs] at h
          simp only [Bool.and_eq_true] at h
          exact ⟨a, b, c, rfl, h.1.1, h.1.2, h.2⟩
        | cons d t4 => rw [hs] at h; simp at h

/-- A slash-pattern string consists of digits and slashes only. -/
theorem slash_pattern_chars {v : String} {a b c : List Char}
    (hs : splitCh '/' v.toList = [a, b, c])
    (ha : a.all Char.isDigit = true) (hb : b.all Char.isDigit = true)
    (hc : c.all Char.isDigit = true) :
    ∀ ch ∈ v.toList, ch.isDigit = true ∨ ch = '/' := by
  have hj : v.toList = a ++ '/' :: (b ++ '/' :: c) := by
    have := joinCh_splitCh '/' v.toList
    rw [hs] at this
    simpa [joinCh] using this.symm
  intro ch hch
  rw [hj] at hch
  simp only [List.mem_append, List.mem_cons] at hch
  rcases hch with h1 | h2 | h3 | h4
  · exact Or.inl (by simpa using List.all_eq_true.mp ha ch h1)
  · exact Or.inr h2
  · exact Or.inl (by simpa using List.all_eq_true.mp hb ch h3)
  · rcases h4 with h4 | h4
    · exact Or.inr h4
    · exact Or.inl (by simpa using List.all_eq_true.mp hc ch h4)

/-- A string matching the `DD/MM/YYYY` pattern never matches the ISO pattern. -/
theorem ddmm_not_iso {v : String} (h : ddmmyyyyPattern v = true) :
    isoPattern v = false := by
  obtain ⟨a, b, c, hs, ha, hb, hc⟩ := ddmm_split h
  have hchars := slash_pattern_chars hs
    (by unfold digitGroup at ha; simp only [Bool.and_eq_true] at ha; exact ha.2)
    (by unfold digitGroup at hb; simp only [Bool.and_eq_true] at hb; exact hb.2)
    (by unfold digitGroup at hc; simp only [Bool.and_eq_true] at hc; exact hc.2)
  have hnm : '-' ∉ v.toList := by
    intro hmem
    rcases hchars '-' hmem with hd | hsl
    · simp at hd
    · simp at hsl
  unfold isoPattern
  rw [splitCh_of_not_mem hnm]

/-- A string matching the `MM/DD/YY` pattern never matches the ISO pattern. -/
theorem mmdd_not_iso {v : String} (h : mmddyyPattern v = true) :
    isoPattern v = false := by
  obtain ⟨a, b, c, hs, ha, hb, hc⟩ := mmdd_split h
  have hchars := slash_pattern_chars hs
    (by unfold digitGroup at ha; simp only [Bool.and_eq_true] at ha; exact ha.2)
    (by unfold digitGroup at hb; simp only [Bool.and_eq_true] at hb; exact hb.2)
    (by unfold digitGroup at hc; simp only [Bool.and_eq_true] at hc; exact hc.2)
  have hnm : '-' ∉ v.toList := by
    intro hmem
    rcases hchars '-' hmem with hd | hsl
    · simp at hd
    · simp at hsl
  unfold isoPattern
  rw [splitCh_of_not_mem hnm]

/-- The two slash patterns are mutually exclusive (year width 4 vs 2). -/
theorem ddmm_not_mmdd {v : String} (h : ddmmyyyyPattern v = true) :
    mmddyyPattern v = false := by
  obtain ⟨a, b, c, hs, _, _, hc⟩ := ddmm_split h
  cases hm : mmddyyPattern v
  · rfl
  · obtain ⟨a', b', c', hs', _, _, hc'⟩ := mmdd_split hm
    rw [hs] at hs'
    injection hs' with h1 hs'
    injection hs' with h2 hs'
    injection hs' with h3 hs'
    subst h3
    unfold digitGroup at hc hc'
    simp only [Bool.and_eq_true, decide_eq_true_eq] at hc hc'
    omega

/-- How many of the three detection patterns a string matches. -/
def patternCount (v : String) : Nat :=
  (if isoPattern v then 1 else 0) + (if ddmmyyyyPattern v then 1 else 0) +
    (if mmddyyPattern v then 1 else 0)

/-- Detection is unambiguous: no string matches two patterns. -/
theorem patternCount_le_one (v : String) : patternCount v ≤ 1 := by
  unfold patternCount
  cases hi : isoPattern v
  · cases hd : ddmmyyyyPattern v
    · cases hm : mmddyyPattern v <;> simp
    · rw [ddmm_not_mmdd hd]
      simp
  · cases hd : ddmmyyyyPattern v
    · cases hm : mmddyyPattern v
      · simp
      · rw [mmdd_not_iso hm] at hi
        exact absurd hi (by simp)
    · rw [ddmm_not_iso hd] at hi
      exact absurd hi (by simp)

/-- On a stripped string matching the `DD/MM/YYYY` pattern, detection yields
`DD_MM_YYYY`. -/
theorem detect_format_of_ddmm {v : String} (hv : pyStrip v = v)
    (h : ddmmyyyyPattern v = true) : detect_format v = some DateFormat.DD_MM_YYYY := by
  have hne : v ≠ "" := by
    intro he
    rw [he] at h
    exact absurd h (by decide)
  unfold detect_format
  rw [if_neg hne]
  simp [hv, ddmm_not_iso h, h]

/-! ## Claim C2 -/

/-- C2: every string matching the `dd/mm/yyyy` digit-width slash pattern is
interpreted day-first, never month-first: both without a hint and with the
`DD_MM_YYYY` hint, `parse_date` returns exactly the result of the day-first
parser `_parse_dd_mm_yyyy`; in particular `"01/02/2024"` yields
February 1, 2024 both ways. -/
theorem C2_ddmmyyyy_day_first (s : String)
    (h : ddmmyyyyPattern (pyStrip s) = true) :
    parse_date (some s) none = exceptValue (parse_dd_mm_yyyy (pyStrip s)) ∧
    parse_date (some s) (some DateFormat.DD_MM_YYYY) =
      exceptValue (parse_dd_mm_yyyy (pyStrip s)) ∧
    parse_date (some "01/02/2024") none = some { year := 2024, month := 2, day := 1 } ∧
    parse_date (some "01/02/2024") (some DateFormat.DD_MM_YYYY) =
      some { year := 2024, month := 2, day := 1 } := by
  have hne : pyStrip s ≠ "" := by
    intro he
    rw [he] at h
    exact absurd h (by decide)
  have hdet : detect_format (pyStrip s) = some DateFormat.DD_MM_YYYY :=
    detect_format_of_ddmm (pyStrip_idem s) h
  have hauto : parse_dateE (some s) none = parse_dd_mm_yyyy (pyStrip s) := by
    simp [parse_dateE, hne, hdet, try_format]
  refine ⟨?_, ?_, by decide, by decide⟩
  · unfold parse_date
    rw [hauto]
  · unfold parse_date
    obtain ⟨o, ho⟩ := parse_dd_mm_yyyy_ok (pyStrip s)
    cases o with
    | some d =>
      have hh : parse_dateE (some s) (some DateFormat.DD_MM_YYYY) = Except.ok (some d) := by
        simp [parse_dateE, hne, try_format, ho]
      rw [hh, ho]
    | none =>
      have hh : parse_dateE (some s) (some DateFormat.DD_MM_YYYY) =
          parse_dd_mm_yyyy (pyStrip s) := by
        simp [parse_dateE, hne, try_format, ho, hdet]
      rw [hh]

/-- Witness for C2 at `"01/02/2024"`. -/
theorem C2_ddmmyyyy_day_first_witness :
    ddmmyyyyPattern (pyStrip "01/02/2024") = true ∧
    parse_date (some "01/02/2024") none =
      exceptValue (parse_dd_mm_yyyy (pyStrip "01/02/2024")) :=
  ⟨by decide, (C2_ddmmyyyy_day_first "01/02/2024" (by decide)).1⟩

/-! ## Claim C6 -/

/-- C6 counterexample: a supplied hint attempts numeric parsing without any
pattern gate.  `"2024-1-5"` is recognized by no fixed-width pattern (auto
detection returns nothing and the unhinted parse is null), yet with the ISO
hint the numeric parser accepts it. -/
theorem C6_counterexample :
    detect_format "2024-1-5" = none ∧
    isoPattern (pyStrip "2024-1-5") = false ∧
    parse_date (some "2024-1-5") none = none ∧
    parse_date (some "2024-1-5") (some DateFormat.ISO) =
      some { year := 2024, month := 1, day := 5 } := by
  refine ⟨by decide, by decide, by decide, by decide⟩

/-- C6 (amended): the no-hint path attempts numeric parsing only on
pattern-recognized strings — it applies exactly the parser of the detected
format and returns null if no pattern matches — with detection trying
ISO, then DD/MM/YYYY, then MM/DD/YY (mutually exclusive patterns); a supplied
hint is attempted numerically first without the pattern gate, and on failure
parsing falls through to the auto-detection path. -/
theorem C6_detection_and_hint (s : String) (hf : DateFormat) :
    parse_date (some s) none =
      (match detect_format (pyStrip s) with
       | some f => exceptValue (try_format (pyStrip s) f)
       | none => none) ∧
    parse_date (some s) (some hf) =
      (match exceptValue (try_format (pyStrip s) hf) with
       | some d => some d
       | none => parse_date (some s) none) ∧
    detect_format s =
      (if s = "" then none
       else if isoPattern (pyStrip s) then some DateFormat.ISO
       else if ddmmyyyyPattern (pyStrip s) then some DateFormat.DD_MM_YYYY
       else if mmddyyPattern (pyStrip s) then some DateFormat.MM_DD_YY
       else none) ∧
    patternCount s ≤ 1 := by
  have hc1 : parse_date (some s) none =
      (match detect_format (pyStrip s) with
       | some f => exceptValue (try_format (pyStrip s) f)
       | none => none) := by
    by_cases hv : pyStrip s = ""
    · have hd : detect_format "" = none := rfl
      simp [parse_date, parse_dateE, hv, hd, exceptValue]
    · cases hd : detect_format (pyStrip s) with
      | none => simp [parse_date, parse_dateE, hv, hd, exceptValue]
      | some f => simp [parse_date, parse_dateE, hv, hd]
  refine ⟨hc1, ?_, by simp [detect_format], patternCount_le_one s⟩
  by_cases hv : pyStrip s = ""
  · have htf : exceptValue (try_format "" hf) = none := by
      cases hf <;> decide
    have hok : ∀ o : Option PyDate, exceptValue (Except.ok o) = o := fun o => rfl
    simp [parse_date, parse_dateE, hv, htf, hok]
  · obtain ⟨o, ho⟩ := try_format_ok (pyStrip s) hf
    cases o with
    | some d =>
      simp only [parse_date, parse_dateE, if_neg hv, ho]
      rfl
    | none =>
      have hex : exceptValue (try_format (pyStrip s) hf) = none := by
        rw [ho]
        rfl
      simp only [hex]
      simp only [parse_date, parse_dateE, if_neg hv, ho]

/-! ## Claim C4 -/

/-- C4: `validate_calibration` always returns exactly one finding, decided in
order: WARNING if the expiration field is absent or its value null, WARNING if
the value does not parse, ERROR if the parsed expiration is strictly before
the test date, INFO otherwise (so an expiration equal to the test date is
INFO, one day earlier ERROR). -/
theorem C4_validate_calibration_decision (cal : CalibrationInfo) (td : PyDate)
    (rid : String) :
    (validate_calibration cal td rid).length = 1 ∧
    (cal.expiration_date = none →
      severities (validate_calibration cal td rid) = [FindingSeverity.WARNING]) ∧
    (∀ ef, cal.expiration_date = some ef → ef.value = none →
      severities (validate_calibration cal td rid) = [FindingSeverity.WARNING]) ∧
    (∀ ef v, cal.expiration_date = some ef → ef.value = some v →
      parse_date (some v) none = none →
      severities (validate_calibration cal td rid) = [FindingSeverity.WARNING]) ∧
    (∀ ef v d, cal.expiration_date = some ef → ef.value = some v →
      parse_date (some v) none = some d → d.lt td = true →
      severities (validate_calibration cal td rid) = [FindingSeverity.ERROR]) ∧
    (∀ ef v d, cal.expiration_date = some ef → ef.value = some v →
      parse_date (some v) none = some d → d.lt td = false →
      severities (validate_calibration cal td rid) = [FindingSeverity.INFO]) := by
  refine ⟨?_, ?_, ?_, ?_, ?_, ?_⟩
  · unfold validate_calibration
    repeat' split
    all_goals simp
  · intro h
    simp [validate_calibration, h, severities]
  · intro ef h hv
    simp [validate_calibration, h, hv, severities]
  · intro ef v h hv hp
    simp [validate_calibration, h, hv, hp, severities]
  · intro ef v d h hv hp hlt
    simp [validate_calibration, h, hv, hp, hlt, severities]
  · intro ef v d h hv hp hlt
    simp [validate_calibration, h, hv, hp, hlt, severities]

/-- Witness for C4: expiring exactly on the test date is INFO; one day
earlier is ERROR. -/
theorem C4_validate_calibration_decision_witness :
    severities (validate_calibration
        { expiration_date := some { name := "expiration_date", value := some "2024-06-15" } }
        { year := 2024, month := 6, day := 15 } "VAL-01") = [FindingSeverity.INFO] ∧
    severities (validate_calibration
        { expiration_date := some { name := "expiration_date", value := some "2024-06-15" } }
        { year := 2024, month := 6, day := 16 } "VAL-01") = [FindingSeverity.ERROR] :=
  ⟨(C4_validate_calibration_decision
      { expiration_date := some { name := "expiration_date", value := some "2024-06-15" } }
      { year := 2024, month := 6, day := 15 } "VAL-01").2.2.2.2.2
      { name := "expiration_date", value := some "2024-06-15" } "2024-06-15"
      { year := 2024, month := 6, day := 15 } rfl rfl (by decide) (by decide),
   (C4_validate_calibration_decision
      { expiration_date := some { name := "expiration_date", value := some "2024-06-15" } }
      { year := 2024, month := 6, day := 16 } "VAL-01").2.2.2.2.1
      { name := "expiration_date", value := some "2024-06-15" } "2024-06-15"
      { year := 2024, month := 6, day := 15 } rfl rfl (by decide) (by decide)⟩

/-! ## Claim C8 -/

/-- A string that parses as a float is not whitespace-only. -/
theorem pyFloat_strip_ne {v : String} {q : ℚ} (h : pyFloat v = some q) :
    pyStrip v ≠ "" := by
  intro he
  have hl : stripChars v.toList = [] := congrArg String.toList he
  rw [pyFloat, hl] at h
  simp [floatMantissa, spanDigits] at h

/-- Each reading contributes to exactly one of the parsed and unparseable
lists. -/
theorem collectTemps_length (rs : List MeasurementReading) :
    (collectTemps rs).temperatures.length + (collectTemps rs).unparseable_phases.length
      = rs.length := by
  induction rs with
  | nil => rfl
  | cons r rest ih =>
    simp only [collectTemps]
    split
    · simpa using by omega
    · split
      · simpa using by omega
      · split
        · simpa using by omega
        · simpa using by omega

/-- C8: threshold boundaries fall in the lower-severity bucket in both numeric
validators: a parsed nonnegative grounding resistance maps to ERROR exactly
when strictly above 10.0, WARNING exactly when strictly above 5.0 (so 5.0 is
INFO, 10.0 WARNING), and a phase delta maps to ERROR exactly when strictly
above 15.0, WARNING exactly when strictly above 3.0 (so 3.0 is INFO, 15.0
WARNING). -/
theorem C8_threshold_boundaries (g : GroundingData) (rid : String) (q : ℚ)
    (rs : List MeasurementReading) (rid2 : String) :
    (∀ rv v, g.resistance_value = some rv → rv.value = some v →
      pyFloat v = some q → 0 ≤ q →
      severities (validate_grounding_resistance g rid) =
        [if q > RESISTANCE_ERROR_THRESHOLD then FindingSeverity.ERROR
         else if q > RESISTANCE_WARNING_THRESHOLD then FindingSeverity.WARNING
         else FindingSeverity.INFO]) ∧
    (∀ ts ls, collectTemps rs = ⟨ts, ls, []⟩ → 2 ≤ ts.length →
      severities (validate_phase_delta rs rid2) =
        [if listMax ts - listMin ts > DELTA_ERROR_THRESHOLD then FindingSeverity.ERROR
         else if listMax ts - listMin ts > DELTA_WARNING_THRESHOLD then FindingSeverity.WARNING
         else FindingSeverity.INFO]) := by
  constructor
  · intro rv v hrv hval hp hq
    have hne := pyFloat_strip_ne hp
    have hneg : ¬(q < 0) := not_lt.mpr hq
    simp only [validate_grounding_resistance, hrv, hval, if_neg hne, hp]
    split_ifs <;> simp_all [severities]
  · intro ts ls hacc hlen
    have hcount := collectTemps_length rs
    rw [hacc] at hcount
    have hge : ¬(rs.length < 2) := by
      simp only at hcount
      omega
    simp only [validate_phase_delta, if_neg hge, hacc]
    split_ifs <;> simp_all [severities]
    all_goals omega

/-- Witness for C8: literal boundary scenarios — resistance 5.0 is INFO, 10.0
WARNING, 10.5 ERROR; delta 3.0 is INFO, 15.0 WARNING, 15.5 ERROR. -/
theorem C8_threshold_boundaries_witness :
    severities (validate_grounding_resistance
      { resistance_value := some { name := "r", value := some "5.0" } } "GROUND-02") =
        [FindingSeverity.INFO] ∧
    severities (validate_grounding_resistance
      { resistance_value := some { name := "r", value := some "10.0" } } "GROUND-02") =
        [FindingSeverity.WARNING] ∧
    severities (validate_grounding_resistance
      { resistance_value := some { name := "r", value := some "10.5" } } "GROUND-02") =
        [FindingSeverity.ERROR] ∧
    severities (validate_phase_delta
      [{ location_label := "A", value := some { name := "t", value := some "0" } },
       { location_label := "B", value := some { name := "t", value := some "3.0" } }]
      "THERMO-02") = [FindingSeverity.INFO] ∧
    severities (validate_phase_delta
      [{ location_label := "A", value := some { name := "t", value := some "0" } },
       { location_label := "B", value := some { name := "t", value := some "15.0" } }]
      "THERMO-02") = [FindingSeverity.WARNING] ∧
    severities (validate_phase_delta
      [{ location_label := "A", value := some { name := "t", value := some "0" } },
       { location_label := "B", value := some { name := "t", value := some "15.5" } }]
      "THERMO-02") = [FindingSeverity.ERROR] := by
  refine ⟨?_, ?_, ?_, ?_, ?_, ?_⟩
  · rw [(C8_threshold_boundaries
      { resistance_value := some { name := "r", value := some "5.0" } } "GROUND-02"
      5 [] "").1 { name := "r", value := some "5.0" } "5.0" rfl rfl
      (by simp [pyFloat, stripChars, pySpaceChar, spanDigits, floatMantissa, digitsVal, qpow10])
      (by norm_num)]
    norm_num [RESISTANCE_ERROR_THRESHOLD, RESISTANCE_WARNING_THRESHOLD]
  · rw [(C8_threshold_boundaries
      { resistance_value := some { name := "r", value := some "10.0" } } "GROUND-02"
      10 [] "").1 { name := "r", value := some "10.0" } "10.0" rfl rfl
      (by simp [pyFloat, stripChars, pySpaceChar, spanDigits, floatMantissa, digitsVal, qpow10])
      (by norm_num)]
    norm_num [RESISTANCE_ERROR_THRESHOLD, RESISTANCE_WARNING_THRESHOLD]
  · rw [(C8_threshold_boundaries
      { resistance_value := some { name := "r", value := some "10.5" } } "GROUND-02"
      (21 / 2) [] "").1 { name := "r", value := some "10.5" } "10.5" rfl rfl
      (by simp [pyFloat, stripChars, pySpaceChar, spanDigits, floatMantissa, digitsVal, qpow10]
          norm_num)
      (by norm_num)]
    norm_num [RESISTANCE_ERROR_THRESHOLD, RESISTANCE_WARNING_THRESHOLD]
  · rw [(C8_threshold_boundaries { } "" 0
      [{ location_label := "A", value := some { name := "t", value := some "0" } },
       { location_label := "B", value := some { name := "t", value := some "3.0" } }]
      "THERMO-02").2 [0, 3] ["A", "B"]
      (by simp [collectTemps, pyFloat, stripChars, pySpaceChar, spanDigits, floatMantissa,
            digitsVal, qpow10])
      (by norm_num)]
    norm_num [listMax, listMin, max_def, min_def, DELTA_ERROR_THRESHOLD, DELTA_WARNING_THRESHOLD]
  · rw [(C8_threshold_boundaries { } "" 0
      [{ location_label := "A", value := some { name := "t", value := some "0" } },
       { location_label := "B", value := some { name := "t", value := some "15.0" } }]
      "THERMO-02").2 [0, 15] ["A", "B"]
      (by simp [collectTemps, pyFloat, stripChars, pySpaceChar, spanDigits, floatMantissa,
            digitsVal, qpow10])
      (by norm_num)]
    norm_num [listMax, listMin, max_def, min_def, DELTA_ERROR_THRESHOLD, DELTA_WARNING_THRESHOLD]
  · rw [(C8_threshold_boundaries { } "" 0
      [{ location_label := "A", value := some { name := "t", value := some "0" } },
       { location_label := "B", value := some { name := "t", value := some "15.5" } }]
      "THERMO-02").2 [0, 31 / 2] ["A", "B"]
      (by simp [collectTemps, pyFloat, stripChars, pySpaceChar, spanDigits, floatMantissa,
            digitsVal, qpow10]
          norm_num)
      (by norm_num)]
    norm_num [listMax, listMin, max_def, min_def, DELTA_ERROR_THRESHOLD, DELTA_WARNING_THRESHOLD]

/-! ## Claim C9 -/

/-- The voltage-class scan always finds a row (the final row is open-ended). -/
theorem get_min_resistance_total (v : ℚ) : ∃ mn, get_min_resistance v = some mn := by
  unfold get_min_resistance VOLTAGE_CLASS_MIN_RESISTANCE
  by_cases h1 : v ≤ 250
  · exact ⟨0.25, by simp [List.find?, leMaxEquip, h1]⟩
  · by_cases h2 : v ≤ 500
    · exact ⟨0.5, by simp [List.find?, leMaxEquip, h1, h2]⟩
    · by_cases h3 : v ≤ 1000
      · exact ⟨1.0, by simp [List.find?, leMaxEquip, h1, h2, h3]⟩
      · exact ⟨1.0, by simp [List.find?, leMaxEquip, h1, h2, h3]⟩

/-- C9: when the equipment rating and the insulation resistance both parse,
`validate_insulation_resistance` returns exactly one finding — WARNING
exactly when the resistance is strictly below the class minimum, INFO
otherwise, never ERROR — where the minimum comes from the first row of the
ordered table (250 to 0.25, 500 to 0.5, 1000 to 1.0, open-ended to 1.0) whose
bound is at least the equipment voltage. -/
theorem C9_insulation_minimum (m : MeggerData) (rid : String) (v r : ℚ) :
    (∀ evr ir sv sr, m.equipment_voltage_rating = some evr → evr.value = some sv →
      m.insulation_resistance = some ir → ir.value = some sr →
      pyFloat sv = some v → pyFloat sr = some r →
      ∃ mn, get_min_resistance v = some mn ∧
        severities (validate_insulation_resistance m rid) =
          [if r < mn then FindingSeverity.WARNING else FindingSeverity.INFO]) ∧
    (v ≤ 250 → get_min_resistance v = some 0.25) ∧
    (250 < v → v ≤ 500 → get_min_resistance v = some 0.5) ∧
    (500 < v → v ≤ 1000 → get_min_resistance v = some 1.0) ∧
    (1000 < v → get_min_resistance v = some 1.0) ∧
    (∀ m2 : MeggerData, ∀ rid2 : String,
      (validate_insulation_resistance m2 rid2).all
        (fun f => !(f.severity == FindingSeverity.ERROR)) = true) := by
  refine ⟨?_, ?_, ?_, ?_, ?_, ?_⟩
  · intro evr ir sv sr hevr hsv hir hsr hv hr
    obtain ⟨mn, hmn⟩ := get_min_resistance_total v
    refine ⟨mn, hmn, ?_⟩
    simp only [validate_insulation_resistance, hevr, hsv, hir, hsr, hv, hr, hmn]
    split_ifs <;> simp [severities]
  · intro h1
    simp [get_min_resistance, VOLTAGE_CLASS_MIN_RESISTANCE, List.find?, leMaxEquip, h1]
  · intro h1 h2
    have h1' : ¬(v ≤ 250) := not_le.mpr h1
    simp [get_min_resistance, VOLTAGE_CLASS_MIN_RESISTANCE, List.find?, leMaxEquip, h1', h2]
  · intro h2 h3
    have h2' : ¬(v ≤ 500) := not_le.mpr h2
    have h1' : ¬(v ≤ 250) := fun hc => h2' (hc.trans (by norm_num))
    simp [get_min_resistance, VOLTAGE_CLASS_MIN_RESISTANCE, List.find?, leMaxEquip, h1', h2', h3]
  · intro h3
    have h3' : ¬(v ≤ 1000) := not_le.mpr h3
    have h2' : ¬(v ≤ 500) := fun hc => h3' (hc.trans (by norm_num))
    have h1' : ¬(v ≤ 250) := fun hc => h3' (hc.trans (by norm_num))
    simp [get_min_resistance, VOLTAGE_CLASS_MIN_RESISTANCE, List.find?, leMaxEquip, h1', h2', h3']
  · intro m2 rid2
    unfold validate_insulation_resistance
    repeat' split
    all_goals simp

/-- Witness for C9: equipment rated 400 V has minimum 0.5 megohm; 0.4 is
WARNING, 0.5 INFO. -/
theorem C9_insulation_minimum_witness :
    severities (validate_insulation_resistance
      { equipment_voltage_rating := some { name := "v", value := some "400" },
        insulation_resistance := some { name := "r", value := some "0.4" } } "MEGGER-03") =
      [FindingSeverity.WARNING] ∧
    severities (validate_insulation_resistance
      { equipment_voltage_rating := some { name := "v", value := some "400" },
        insulation_resistance := some { name := "r", value := some "0.5" } } "MEGGER-03") =
      [FindingSeverity.INFO] := by
  constructor
  · obtain ⟨mn, hmn, hsev⟩ := (C9_insulation_minimum
      { equipment_voltage_rating := some { name := "v", value := some "400" },
        insulation_resistance := some { name := "r", value := some "0.4" } }
      "MEGGER-03" 400 (2/5)).1
      { name := "v", value := some "400" } { name := "r", value := some "0.4" }
      "400" "0.4" rfl rfl rfl rfl
      (by simp [pyFloat, stripChars, pySpaceChar, spanDigits, floatMantissa, digitsVal, qpow10])
      (by simp [pyFloat, stripChars, pySpaceChar, spanDigits, floatMantissa, digitsVal, qpow10]
          norm_num)
    have h05 : get_min_resistance (400 : ℚ) = some 0.5 := (C9_insulation_minimum
      { equipment_voltage_rating := some { name := "v", value := some "400" },
        insulation_resistance := some { name := "r", value := some "0.4" } }
      "MEGGER-03" 400 (2/5)).2.2.1 (by norm_num) (by norm_num)
    rw [hmn] at h05
    injection h05 with h05
    subst h05
    rw [hsev]
    norm_num
  · obtain ⟨mn, hmn, hsev⟩ := (C9_insulation_minimum
      { equipment_voltage_rating := some { name := "v", value := some "400" },
        insulation_resistance := some { name := "r", value := some "0.5" } }
      "MEGGER-03" 400 (1/2)).1
      { name := "v", value := some "400" } { name := "r", value := some "0.5" }
      "400" "0.5" rfl rfl rfl rfl
      (by simp [pyFloat, stripChars, pySpaceChar, spanDigits, floatMantissa, digitsVal, qpow10])
      (by simp [pyFloat, stripChars, pySpaceChar, spanDigits, floatMantissa, digitsVal, qpow10]
          norm_num)
    have h05 : get_min_resistance (400 : ℚ) = some 0.5 := (C9_insulation_minimum
      { equipment_voltage_rating := some { name := "v", value := some "400" },
        insulation_resistance := some { name := "r", value := some "0.5" } }
      "MEGGER-03" 400 (1/2)).2.2.1 (by norm_num) (by norm_num)
    rw [hmn] at h05
    injection h05 with h05
    subst h05
    rw [hsev]
    norm_num

/-! ## Claim C7 -/

theorem map_severity_of_supplementary (us : List (String × ExtractedField)) (rid : String) :
    (us.map (fun p : String × ExtractedField =>
      ({ rule_id := rid, severity := FindingSeverity.INFO,
         message := "Serial number '" ++ p.1 ++ "' found at this location",
         field_name := "serial_number", found_value := some p.1,
         expected_value := none, location := p.2.location } : Finding))).map (fun f => f.severity)
      = us.map (fun _ => FindingSeverity.INFO) := by
  induction us with
  | nil => rfl
  | cons p t ih =>
    simp only [List.map_cons]
    rw [ih]

theorem dedupStrs_length_le (l : List String) : (dedupStrs l).length ≤ l.length := by
  induction l with
  | nil => simp [dedupStrs]
  | cons x xs ih =>
    simp only [dedupStrs]
    split
    · exact le_trans ih (by simp)
    · simpa using Nat.succ_le_succ ih

/-- C7 counterexample: the claim fails on two concrete inputs.  With
`[ABC123, null]` there are fewer than 2 usable values and exactly one usable
value exists, yet the skipped finding carries no value.  With
`[ABC123, null, XYZ789]` the mismatch path emits one supplementary INFO per
usable (non-null) field, not per original field: 3 findings, not 4. -/
theorem C7_counterexample :
    (validate_serial_consistency
      [{ name := "serial_number", value := some "ABC123" },
       { name := "serial_number", value := none }] "VAL-02").map (fun f => f.found_value) =
      [none] ∧
    ¬ ((validate_serial_consistency
      [{ name := "serial_number", value := some "ABC123" },
       { name := "serial_number", value := none }] "VAL-02").map (fun f => f.found_value) =
      [some "ABC123"]) ∧
    severities (validate_serial_consistency
      [{ name := "serial_number", value := some "ABC123" },
       { name := "serial_number", value := none }] "VAL-02") = [FindingSeverity.INFO] ∧
    (validate_serial_consistency
      [{ name := "serial_number", value := some "ABC123" },
       { name := "serial_number", value := none },
       { name := "serial_number", value := some "XYZ789" }] "VAL-02").length = 3 ∧
    ¬ ((validate_serial_consistency
      [{ name := "serial_number", value := some "ABC123" },
       { name := "serial_number", value := none },
       { name := "serial_number", value := some "XYZ789" }] "VAL-02").length = 4) := by
  refine ⟨by decide, by decide, by decide, by decide, by decide⟩

/-- C7 (amended): the §4.3 decision table as implemented.  With fewer than 2
raw entries: one INFO skipped finding carrying the first entry's value (the
sole value when exactly one exists).  With at least 2 raw entries but fewer
than 2 usable (non-null) values: one INFO skipped finding carrying no value.
With 2 or more usable values all equal after normalization: one INFO
consistent finding.  Otherwise: one ERROR finding whose found_value is the
sorted comma-joined distinct normalized values, followed by one supplementary
INFO finding per usable (non-null) field stating the value found there. -/
theorem C7_serial_decision (fields : List ExtractedField) (rid : String) :
    (fields.length < 2 →
      severities (validate_serial_consistency fields rid) = [FindingSeverity.INFO] ∧
      (validate_serial_consistency fields rid).map (fun f => f.found_value) =
        [match fields.head? with | some f => f.value | none => none]) ∧
    (¬ fields.length < 2 →
      (fields.filterMap (fun f => f.value.map (fun v => (pyUpper (pyStrip v), f)))).length < 2 →
      severities (validate_serial_consistency fields rid) = [FindingSeverity.INFO] ∧
      (validate_serial_consistency fields rid).map (fun f => f.found_value) = [none]) ∧
    (∀ us, fields.filterMap (fun f => f.value.map (fun v => (pyUpper (pyStrip v), f))) = us →
      2 ≤ us.length → (dedupStrs (us.map Prod.fst)).length = 1 →
      severities (validate_serial_consistency fields rid) = [FindingSeverity.INFO] ∧
      (validate_serial_consistency fields rid).map (fun f => f.found_value) =
        [some ((dedupStrs (us.map Prod.fst)).head?.getD "")]) ∧
    (∀ us, fields.filterMap (fun f => f.value.map (fun v => (pyUpper (pyStrip v), f))) = us →
      2 ≤ (dedupStrs (us.map Prod.fst)).length →
      severities (validate_serial_consistency fields rid) =
        FindingSeverity.ERROR :: us.map (fun _ => FindingSeverity.INFO) ∧
      (validate_serial_consistency fields rid).map (fun f => f.found_value) =
        some (String.intercalate ", " (sortStrs (dedupStrs (us.map Prod.fst)))) ::
          us.map (fun p => some p.1) ∧
      (validate_serial_consistency fields rid).length = 1 + us.length) := by
  refine ⟨?_, ?_, ?_, ?_⟩
  · intro h
    cases fields with
    | nil => simp [validate_serial_consistency, severities]
    | cons f t =>
      cases t with
      | nil => simp [validate_serial_consistency, severities]
      | cons f2 t2 => exact absurd h (by simp)
  · intro h1 h2
    rw [validate_serial_consistency, if_neg h1, if_pos h2]
    simp [severities]
  · intro us hus h2 h1
    have hf2 : ¬ fields.length < 2 := by
      have := List.length_filterMap_le (fun f : ExtractedField =>
        f.value.map (fun v => (pyUpper (pyStrip v), f))) fields
      rw [hus] at this
      omega
    have h1' : ((dedupStrs (us.map Prod.fst)).length == 1) = true := by
      simp [h1]
    simp only [validate_serial_consistency, hus, if_neg hf2,
      if_neg (show ¬ us.length < 2 by omega), h1']
    simp [severities]
  · intro us hus h2
    have husle : 2 ≤ us.length := by
      have := dedupStrs_length_le (us.map Prod.fst)
      rw [List.length_map] at this
      omega
    have hf2 : ¬ fields.length < 2 := by
      have := List.length_filterMap_le (fun f : ExtractedField =>
        f.value.map (fun v => (pyUpper (pyStrip v), f))) fields
      rw [hus] at this
      omega
    have hcond : ¬(((dedupStrs (us.map Prod.fst)).length == 1) = true) := by
      simp only [Nat.beq_eq_true_eq]
      omega
    simp only [validate_serial_consistency, hus, if_neg hf2,
      if_neg (show ¬ us.length < 2 by omega), if_neg hcond]
    refine ⟨?_, ?_, ?_⟩
    · simp only [severities, List.map_cons]
      rw [map_severity_of_supplementary]
    · simp
    · simp [Nat.add_comm]

/-- Witness for C7 (amended): normalization collapses case and whitespace to
one consistent INFO; a true mismatch yields ERROR plus one supplementary INFO
per usable field, with the sorted joined values. -/
theorem C7_serial_decision_witness :
    severities (validate_serial_consistency
      [{ name := "serial_number", value := some "ABC123" },
       { name := "serial_number", value := some " abc123 " }] "VAL-02") =
      [FindingSeverity.INFO] ∧
    severities (validate_serial_consistency
      [{ name := "serial_number", value := some "ABC123" },
       { name := "serial_number", value := some "XYZ789" }] "VAL-02") =
      [FindingSeverity.ERROR, FindingSeverity.INFO, FindingSeverity.INFO] ∧
    (validate_serial_consistency
      [{ name := "serial_number", value := some "ABC123" },
       { name := "serial_number", value := some "XYZ789" }] "VAL-02").map
        (fun f => f.found_value) =
      [some "ABC123, XYZ789", some "ABC123", some "XYZ789"] := by
  refine ⟨?_, ?_, ?_⟩
  · exact ((C7_serial_decision
      [{ name := "serial_number", value := some "ABC123" },
       { name := "serial_number", value := some " abc123 " }] "VAL-02").2.2.1
      [("ABC123", { name := "serial_number", value := some "ABC123" }),
       ("ABC123", { name := "serial_number", value := some " abc123 " })]
      (by decide) (by decide) (by decide)).1
  · rw [((C7_serial_decision
      [{ name := "serial_number", value := some "ABC123" },
       { name := "serial_number", value := some "XYZ789" }] "VAL-02").2.2.2
      [("ABC123", { name := "serial_number", value := some "ABC123" }),
       ("XYZ789", { name := "serial_number", value := some "XYZ789" })]
      (by decide) (by decide)).1]
    decide
  · rw [((C7_serial_decision
      [{ name := "serial_number", value := some "ABC123" },
       { name := "serial_number", value := some "XYZ789" }] "VAL-02").2.2.2
      [("ABC123", { name := "serial_number", value := some "ABC123" }),
       ("XYZ789", { name := "serial_number", value := some "XYZ789" })]
      (by decide) (by decide)).2.1]
    decide

/-! ## Claim C3 -/

/-- A numeric input field is missing or unparseable: absent, null value, or a
value `float()` rejects. -/
def numFieldDegraded : Option ExtractedField → Bool
  | none => true
  | some ef =>
    match ef.value with
    | none => true
    | some v => (pyFloat v).isNone

/-- The camera-config inputs are missing or unparseable (an absent
thermography record counts trivially: it yields no findings at all). -/
def cameraDegraded : Option ThermographyData → Bool
  | none => true
  | some d => numFieldDegraded d.camera_ambient_temp || numFieldDegraded d.datalogger_temp

/-- The grounding resistance input is missing, empty or unparseable. -/
def gresDegraded (g : GroundingData) : Bool :=
  match g.resistance_value with
  | none => true
  | some ef =>
    match ef.value with
    | none => true
    | some v => pyStrip v == "" || (pyFloat v).isNone

/-- The grounding test method is absent, null or blank (the GROUND-03
exception case). -/
def methodMissing (g : GroundingData) : Bool :=
  match g.test_method with
  | none => true
  | some ef =>
    match ef.value with
    | none => true
    | some v => pyStrip v == ""

/-- The megger test-voltage inputs are missing or unparseable. -/
def mvoltDegraded (m : MeggerData) : Bool :=
  numFieldDegraded m.equipment_voltage_rating || numFieldDegraded m.test_voltage

/-- The megger insulation inputs are missing or unparseable. -/
def minsDegraded (m : MeggerData) : Bool :=
  numFieldDegraded m.equipment_voltage_rating || numFieldDegraded m.insulation_resistance

/-- C3: across every validator, missing or unparseable (as opposed to
out-of-range) input never produces an ERROR finding — such degraded inputs
yield WARNING findings (or an INFO/empty skip) — with the single exception of
an absent, null or blank grounding test method, which yields exactly one
ERROR finding by design. -/
theorem C3_zero_false_rejection :
    (∀ cal td rid, (cal.expiration_date = none ∨
        (∃ ef, cal.expiration_date = some ef ∧ (ef.value = none ∨
          (∃ v, ef.value = some v ∧ parse_date (some v) none = none)))) →
      (validate_calibration cal td rid).all
        (fun f => f.severity == FindingSeverity.WARNING) = true) ∧
    (∀ g td rid, g.calibration = none →
      (validate_grounding_calibration g td rid).all
        (fun f => f.severity == FindingSeverity.WARNING) = true) ∧
    (∀ m td rid, m.calibration = none →
      (validate_megger_calibration m td rid).all
        (fun f => f.severity == FindingSeverity.WARNING) = true) ∧
    (∀ fields rid,
      (fields.filterMap (fun f => f.value.map (fun v => (pyUpper (pyStrip v), f)))).length < 2 →
      (validate_serial_consistency fields rid).all
        (fun f => !(f.severity == FindingSeverity.ERROR)) = true) ∧
    (∀ t rid, cameraDegraded t = true →
      (validate_camera_config t rid).all
        (fun f => f.severity == FindingSeverity.WARNING) = true) ∧
    (∀ rs rid, (collectTemps rs).temperatures.length < 2 →
      (validate_phase_delta rs rid).all
        (fun f => !(f.severity == FindingSeverity.ERROR)) = true) ∧
    (∀ rs rid, 2 ≤ rs.length → (collectTemps rs).unparseable_phases ≠ [] →
      (validate_phase_delta rs rid).head?.map (fun f => f.severity) =
        some FindingSeverity.WARNING) ∧
    (∀ g rid, gresDegraded g = true →
      (validate_grounding_resistance g rid).all
        (fun f => f.severity == FindingSeverity.WARNING) = true) ∧
    (∀ g rid, methodMissing g = true →
      severities (validate_test_method g rid) = [FindingSeverity.ERROR]) ∧
    (∀ g rid, methodMissing g = false →
      (validate_test_method g rid).all
        (fun f => !(f.severity == FindingSeverity.ERROR)) = true) ∧
    (∀ m rid, mvoltDegraded m = true →
      (validate_test_voltage m rid).all
        (fun f => f.severity == FindingSeverity.WARNING) = true) ∧
    (∀ m rid, minsDegraded m = true →
      (validate_insulation_resistance m rid).all
        (fun f => f.severity == FindingSeverity.WARNING) = true) := by
  refine ⟨?_, ?_, ?_, ?_, ?_, ?_, ?_, ?_, ?_, ?_, ?_, ?_⟩
  · intro cal td rid h
    rcases h with hnone | ⟨ef, hef, hval⟩
    · simp [validate_calibration, hnone]
    · rcases hval with hvn | ⟨v, hv, hp⟩
      · simp [validate_calibration, hef, hvn]
      · simp [validate_calibration, hef, hv, hp]
  · intro g td rid h
    simp [validate_grounding_calibration, h]
  · intro m td rid h
    simp [validate_megger_calibration, h]
  · intro fields rid husable
    by_cases hf : fields.length < 2
    · simp [validate_serial_consistency, hf]
    · simp only [validate_serial_consistency, if_neg hf, if_pos husable]
      simp
  · intro t rid h
    cases t with
    | none => simp [validate_camera_config]
    | some d =>
      cases hc : d.camera_ambient_temp with
      | none => simp [validate_camera_config, hc]
      | some cef =>
        cases hcv : cef.value with
        | none => simp [validate_camera_config, hc, hcv]
        | some cv =>
          cases hdl : d.datalogger_temp with
          | none => simp [validate_camera_config, hc, hcv, hdl]
          | some dlf =>
            cases hdv : dlf.value with
            | none => simp [validate_camera_config, hc, hcv, hdl, hdv]
            | some dv =>
              have h' : ((pyFloat cv).isNone || (pyFloat dv).isNone) = true := by
                simpa [cameraDegraded, numFieldDegraded, hc, hcv, hdl, hdv] using h
              cases hp : pyFloat cv with
              | none => simp [validate_camera_config, hc, hcv, hdl, hdv, hp]
              | some q =>
                cases hq : pyFloat dv with
                | none => simp [validate_camera_config, hc, hcv, hdl, hdv, hp, hq]
                | some q2 => simp [hp, hq] at h'
  · intro rs rid ht
    by_cases hrs : rs.length < 2
    · simp [validate_phase_delta, hrs]
    · simp only [validate_phase_delta, if_neg hrs]
      by_cases hu : (collectTemps rs).unparseable_phases.isEmpty
      · simp [hu, ht]
      · simp [hu, ht]
  · intro rs rid hlen hne
    have hrs : ¬ rs.length < 2 := by omega
    have hie : (collectTemps rs).unparseable_phases.isEmpty = false := by
      cases hc : (collectTemps rs).unparseable_phases with
      | nil => exact absurd hc hne
      | cons a t => simp
    simp only [validate_phase_delta, if_neg hrs, hie]
    by_cases ht : (collectTemps rs).temperatures.length < 2
    · simp [ht]
    · simp [ht]
  · intro g rid h
    cases hr : g.resistance_value with
    | none => simp [validate_grounding_resistance, hr]
    | some ef =>
      cases hv : ef.value with
      | none => simp [validate_grounding_resistance, hr, hv]
      | some v =>
        have h' : (pyStrip v == "" || (pyFloat v).isNone) = true := by
          simpa [gresDegraded, hr, hv] using h
        by_cases hs : pyStrip v = ""
        · simp [validate_grounding_resistance, hr, hv, hs]
        · have hp : pyFloat v = none := by
            rcases Bool.or_eq_true_iff.mp h' with h1 | h1
            · exact absurd (by simpa using h1) hs
            · simpa [Option.isNone_iff_eq_none] using h1
          simp [validate_grounding_resistance, hr, hv, hs, hp]
  · intro g rid h
    cases htm : g.test_method with
    | none => simp [validate_test_method, htm, severities]
    | some tm =>
      cases hv : tm.value with
      | none => simp [validate_test_method, htm, hv, severities]
      | some v =>
        have hs : pyStrip v = "" := by simpa [methodMissing, htm, hv] using h
        simp [validate_test_method, htm, hv, hs, severities]
  · intro g rid h
    cases htm : g.test_method with
    | none => simp [methodMissing, htm] at h
    | some tm =>
      cases hv : tm.value with
      | none => simp [methodMissing, htm, hv] at h
      | some v =>
        have hs : ¬(pyStrip v = "") := by simpa [methodMissing, htm, hv] using h
        simp only [validate_test_method, htm, hv, if_neg hs]
        repeat' split
        all_goals simp
  · intro m rid h
    cases hr : m.equipment_voltage_rating with
    | none => simp [validate_test_voltage, hr]
    | some evr =>
      cases hrv : evr.value with
      | none => simp [validate_test_voltage, hr, hrv]
      | some sv =>
        cases htv : m.test_voltage with
        | none => simp [validate_test_voltage, hr, hrv, htv]
        | some tvf =>
          cases htvv : tvf.value with
          | none => simp [validate_test_voltage, hr, hrv, htv, htvv]
          | some sv2 =>
            have h' : ((pyFloat sv).isNone || (pyFloat sv2).isNone) = true := by
              simpa [mvoltDegraded, numFieldDegraded, hr, hrv, htv, htvv] using h
            cases hp : pyFloat sv with
            | none => simp [validate_test_voltage, hr, hrv, htv, htvv, hp]
            | some q =>
              cases hq : pyFloat sv2 with
              | none => simp [validate_test_voltage, hr, hrv, htv, htvv, hp, hq]
              | some q2 => simp [hp, hq] at h'
  · intro m rid h
    cases hr : m.equipment_voltage_rating with
    | none => simp [validate_insulation_resistance, hr]
    | some evr =>
      cases hrv : evr.value with
      | none => simp [validate_insulation_resistance, hr, hrv]
      | some sv =>
        cases hir : m.insulation_resistance with
        | none => simp [validate_insulation_resistance, hr, hrv, hir]
        | some irf =>
          cases hirv : irf.value with
          | none => simp [validate_insulation_resistance, hr, hrv, hir, hirv]
          | some sv2 =>
            have h' : ((pyFloat sv).isNone || (pyFloat sv2).isNone) = true := by
              simpa [minsDegraded, numFieldDegraded, hr, hrv, hir, hirv] using h
            cases hp : pyFloat sv with
            | none => simp [validate_insulation_resistance, hr, hrv, hir, hirv, hp]
            | some q =>
              cases hq : pyFloat sv2 with
              | none => simp [validate_insulation_resistance, hr, hrv, hir, hirv, hp, hq]
              | some q2 => simp [hp, hq] at h'

/-- Witness for C3 at concrete degraded inputs: missing expiration date,
absent calibration record, unparseable grounding resistance, absent test
method (the ERROR exception), unparseable megger inputs. -/
theorem C3_zero_false_rejection_witness :
    (validate_calibration { } { year := 2024, month := 1, day := 1 } "VAL-01").all
      (fun f => f.severity == FindingSeverity.WARNING) = true ∧
    (validate_grounding_calibration { } { year := 2024, month := 1, day := 1 } "GROUND-01").all
      (fun f => f.severity == FindingSeverity.WARNING) = true ∧
    (validate_grounding_resistance
      { resistance_value := some { name := "r", value := some "abc" } } "GROUND-02").all
      (fun f => f.severity == FindingSeverity.WARNING) = true ∧
    severities (validate_test_method { } "GROUND-03") = [FindingSeverity.ERROR] ∧
    (validate_insulation_resistance
      { equipment_voltage_rating := some { name := "v", value := some "???" } } "MEGGER-03").all
      (fun f => f.severity == FindingSeverity.WARNING) = true := by
  refine ⟨?_, ?_, ?_, ?_, ?_⟩
  · exact C3_zero_false_rejection.1 { } { year := 2024, month := 1, day := 1 } "VAL-01"
      (Or.inl rfl)
  · exact C3_zero_false_rejection.2.1 { } { year := 2024, month := 1, day := 1 } "GROUND-01" rfl
  · exact C3_zero_false_rejection.2.2.2.2.2.2.2.1
      { resistance_value := some { name := "r", value := some "abc" } } "GROUND-02" (by decide)
  · exact C3_zero_false_rejection.2.2.2.2.2.2.2.2.1 { } "GROUND-03" rfl
  · exact C3_zero_false_rejection.2.2.2.2.2.2.2.2.2.2.2
      { equipment_voltage_rating := some { name := "v", value := some "???" } } "MEGGER-03"
      (by decide)

end VAudit
